import Mathlib

set_option maxRecDepth 100000

/-!
Shallow embedding of the StreamLang virtual machine (src/streamvm.py,
class StreamVM): a stack-based VM with a two-pass assembler and a
fetch-decode-execute interpreter for simulated video-streaming control.

Modelling conventions:
  * Python ints are Lean Int (arbitrary precision in both).
  * Python dicts (registers, sensors, labels) are insertion-ordered
    association lists; writes replace in place or append, as dicts do.
  * The operand stack is kept top-first (the source appends to and pops
    from the end of its list; the two views are mirror images).
  * Raised exceptions become Except errors; a raised error discards the
    partially mutated state, which no property below depends on.
  * print output is not modelled, but dict reads occurring inside print
    argument expressions are kept, since they can raise KeyError.
-/

/-- Python exception classes raised by the interpreter. -/
inductive PyErr where
  | runtimeErr (msg : String)
  | valueErr (msg : String)
  | keyErr (key : String)
  | indexErr
  deriving Repr, DecidableEq

deriving instance DecidableEq for Except

/-- Lookup in an insertion-ordered association list (Python dict read). -/
def dget {α : Type} : List (String × α) → String → Option α
  | [], _ => none
  | (k, v) :: rest, key => if k = key then some v else dget rest key

/-- Python dict write d[k] = v: replace in place when the key exists
(keeping the stored key), else append at the end. -/
def dset {α : Type} : List (String × α) → String → α → List (String × α)
  | [], key, v => [(key, v)]
  | (k, w) :: rest, key, v =>
    if k = key then (k, v) :: rest else (k, w) :: dset rest key v

/-- The keys of the dict, in insertion order. -/
def dkeys {α : Type} (d : List (String × α)) : List String := d.map Prod.fst

/-- Python dict read d[k] that raises KeyError when the key is missing. -/
def dgetE (d : List (String × Int)) (k : String) : Except PyErr Int :=
  match dget d k with
  | some v => .ok v
  | none => .error (.keyErr k)

/-- Split a character list at every separator selected by p, keeping
empty pieces (the splitting scheme of Python str.split with an explicit
separator). -/
def chSplit (p : Char → Bool) : List Char → List (List Char)
  | [] => [[]]
  | c :: rest =>
    if p c then [] :: chSplit p rest
    else
      match chSplit p rest with
      | [] => [[c]]
      | piece :: pieces => (c :: piece) :: pieces

/-- Python str.splitlines for newline-separated text. (A trailing newline
yields one extra empty line here; both assembler passes skip it as blank,
so the difference is unobservable.) -/
def pyLines (s : String) : List String :=
  (chSplit (fun c => c = '\n') s.data).map List.asString

/-- Python str.strip: drop whitespace from both ends. -/
def pyStrip (s : String) : String :=
  (((s.data.dropWhile Char.isWhitespace).reverse.dropWhile
      Char.isWhitespace).reverse).asString

/-- Python str.upper. The source only uppercases ASCII opcode, register
and label tokens, so the ASCII case map suffices. -/
def pyUpper (s : String) : String := (s.data.map Char.toUpper).asString

/-- Value of a nonempty all-digit run (the digit part of Python int()). -/
def digitsValAux : List Char → Nat → Option Nat
  | [], acc => some acc
  | c :: rest, acc =>
    if c.isDigit then digitsValAux rest (acc * 10 + (c.toNat - 48)) else none

/-- Python int() on a decimal string token: optional surrounding
whitespace, optional sign, then a nonempty digit run; anything else is a
parse failure. -/
def pyInt (s : String) : Option Int :=
  match (pyStrip s).data with
  | [] => none
  | '-' :: rest =>
    if rest.isEmpty then none
    else (digitsValAux rest 0).map (fun n => -(n : Int))
  | '+' :: rest =>
    if rest.isEmpty then none
    else (digitsValAux rest 0).map (fun n => (n : Int))
  | cs => (digitsValAux cs 0).map (fun n => (n : Int))

/-- Python str.split() with no argument: split on whitespace runs,
dropping empty pieces. -/
def pySplitWs (s : String) : List String :=
  ((chSplit Char.isWhitespace s.data).filter (fun cs => !cs.isEmpty)).map
    List.asString

/-- Python s.split(None, 1): the leading token and the remainder after
the first whitespace run (none when nothing follows). -/
def pySplit1 (s : String) : String × Option String :=
  let cs := s.data.dropWhile Char.isWhitespace
  let tok := cs.takeWhile (fun c => !c.isWhitespace)
  let rest := (cs.dropWhile (fun c => !c.isWhitespace)).dropWhile
    Char.isWhitespace
  (tok.asString, if rest.isEmpty then none else some rest.asString)

/-- Python str.replace of commas by spaces. -/
def commasToSpaces (s : String) : String :=
  (s.data.map (fun c => if c = ',' then ' ' else c)).asString

/-- Python str.startswith for a single character. -/
def chStarts (s : String) (c : Char) : Bool :=
  match s.data with
  | [] => false
  | d :: _ => d = c

/-- Python str.endswith for a single character. -/
def chEnds (s : String) (c : Char) : Bool :=
  match s.data.reverse with
  | [] => false
  | d :: _ => d = c

/-- Python containment test c in s for a single character. -/
def chContains (s : String) (c : Char) : Bool := s.data.contains c

/-- Python line[:-1]. -/
def dropLastChar (s : String) : String := s.data.dropLast.asString

/-- Python rest[1:-1]: the text between the first and last character. -/
def innerQuote (s : String) : String := ((s.data.drop 1).dropLast).asString

/-- One assembled instruction: opcode plus raw argument tokens (the
Python dataclass Instr). -/
structure Instr where
  op : String
  args : List String
  deriving Repr, DecidableEq

/-- The whole mutable state of class StreamVM. -/
structure StreamVM where
  registers : List (String × Int)
  sensors : List (String × Int)
  memory : List Int
  stack : List Int
  video_title : String
  video_loaded : Bool
  program : List Instr
  labels : List (String × Nat)
  pc : Int
  halted : Bool
  steps : Nat
  deriving Repr, DecidableEq

/-- StreamVM.__init__. -/
def StreamVM.init : StreamVM where
  registers := [("POS", 0), ("SPEED", 1), ("R0", 0), ("R1", 0)]
  sensors := [("DURATION", 0), ("IS_PLAYING", 0), ("ENDED", 0)]
  memory := List.replicate 256 0
  stack := []
  video_title := ""
  video_loaded := false
  program := []
  labels := []
  pc := 0
  halted := false
  steps := 0

/-- Python int(arg) for instruction operands: ValueError on a
non-numeric token. -/
def pyIntE (arg : String) : Except PyErr Int :=
  match pyInt arg with
  | some n => .ok n
  | none => .error (.valueErr ("invalid literal for int with base 10: " ++ arg))

/-- The literal-or-register operand rule of PUSH/SEEK/FORWARD/REWIND/WAIT:
if the uppercased token names a register its current contents are used,
otherwise the token is parsed as a signed decimal integer. -/
def resolveOperand (regs : List (String × Int)) (arg : String) :
    Except PyErr Int :=
  match dget regs (pyUpper arg) with
  | some v => .ok v
  | none => pyIntE arg

/-- Python list read l[i]: a negative index addresses from the end;
outside [-len, len) an IndexError is raised. -/
def pyIx (l : List Int) (i : Int) : Except PyErr Int :=
  let j := if i < 0 then i + l.length else i
  if 0 ≤ j ∧ j < (l.length : Int) then .ok (l.getD j.toNat 0)
  else .error .indexErr

/-- Python list write l[i] = v under the same indexing rule. -/
def pyIxSet (l : List Int) (i : Int) (v : Int) : Except PyErr (List Int) :=
  let j := if i < 0 then i + l.length else i
  if 0 ≤ j ∧ j < (l.length : Int) then .ok (l.set j.toNat v)
  else .error .indexErr

/-- The opcode dispatch of StreamVM.step, after the fetch, in source
order. The steps counter is never read or written by any dispatch arm in
the source; see StreamVM.step for where the increment is applied. In the
WAIT arm the source re-reads registers["POS"] right after writing it for
the clamp test and the log line; the just-written value is used directly
here. -/
def execInstr (vm : StreamVM) (op : String) (args : List String) :
    Except PyErr StreamVM :=
  if op = "PUSH" then
    match args with
    | [] => .error .indexErr
    | arg :: _ =>
      match resolveOperand vm.registers arg with
      | .error e => .error e
      | .ok v => .ok { vm with stack := v :: vm.stack, pc := vm.pc + 1 }
  else if op = "POP" then
    match vm.stack with
    | [] => .error (.runtimeErr "Não é possível fazer POP de pilha vazia")
    | v :: rest =>
      match args with
      | [] => .error .indexErr
      | arg :: _ =>
        .ok { vm with registers := dset vm.registers (pyUpper arg) v,
                      stack := rest, pc := vm.pc + 1 }
  else if op = "LOAD" then
    match args with
    | [] => .error .indexErr
    | arg :: _ =>
      match pyIntE arg with
      | .error e => .error e
      | .ok addr =>
        match pyIx vm.memory addr with
        | .error e => .error e
        | .ok v => .ok { vm with stack := v :: vm.stack, pc := vm.pc + 1 }
  else if op = "STORE" then
    match vm.stack with
    | [] => .error (.runtimeErr "Não é possível fazer STORE de pilha vazia")
    | v :: rest =>
      match args with
      | [] => .error .indexErr
      | arg :: _ =>
        match pyIntE arg with
        | .error e => .error e
        | .ok addr =>
          match pyIxSet vm.memory addr v with
          | .error e => .error e
          | .ok mem =>
            .ok { vm with memory := mem, stack := rest, pc := vm.pc + 1 }
  else if op = "ADD" then
    match vm.stack with
    | b :: a :: rest =>
      .ok { vm with stack := (a + b) :: rest, pc := vm.pc + 1 }
    | _ => .error .indexErr
  else if op = "SUB" then
    match vm.stack with
    | b :: a :: rest =>
      .ok { vm with stack := (a - b) :: rest, pc := vm.pc + 1 }
    | _ => .error .indexErr
  else if op = "MUL" then
    match vm.stack with
    | b :: a :: rest =>
      .ok { vm with stack := (a * b) :: rest, pc := vm.pc + 1 }
    | _ => .error .indexErr
  else if op = "DIV" then
    match vm.stack with
    | b :: a :: rest =>
      if b = 0 then .error (.runtimeErr "Divisão por zero")
      else .ok { vm with stack := Int.fdiv a b :: rest, pc := vm.pc + 1 }
    | _ => .error .indexErr
  else if op = "NEG" then
    match vm.stack with
    | a :: rest => .ok { vm with stack := (-a) :: rest, pc := vm.pc + 1 }
    | _ => .error .indexErr
  else if op = "EQ" then
    match vm.stack with
    | b :: a :: rest =>
      .ok { vm with stack := (if a = b then 1 else 0) :: rest,
                    pc := vm.pc + 1 }
    | _ => .error .indexErr
  else if op = "NE" then
    match vm.stack with
    | b :: a :: rest =>
      .ok { vm with stack := (if a ≠ b then 1 else 0) :: rest,
                    pc := vm.pc + 1 }
    | _ => .error .indexErr
  else if op = "LT" then
    match vm.stack with
    | b :: a :: rest =>
      .ok { vm with stack := (if a < b then 1 else 0) :: rest,
                    pc := vm.pc + 1 }
    | _ => .error .indexErr
  else if op = "LE" then
    match vm.stack with
    | b :: a :: rest =>
      .ok { vm with stack := (if a ≤ b then 1 else 0) :: rest,
                    pc := vm.pc + 1 }
    | _ => .error .indexErr
  else if op = "GT" then
    match vm.stack with
    | b :: a :: rest =>
      .ok { vm with stack := (if a > b then 1 else 0) :: rest,
                    pc := vm.pc + 1 }
    | _ => .error .indexErr
  else if op = "GE" then
    match vm.stack with
    | b :: a :: rest =>
      .ok { vm with stack := (if a ≥ b then 1 else 0) :: rest,
                    pc := vm.pc + 1 }
    | _ => .error .indexErr
  else if op = "GOTO" then
    match args with
    | [] => .error .indexErr
    | label :: _ =>
      match dget vm.labels label with
      | none => .error (.valueErr ("Label desconhecido: " ++ label))
      | some ix => .ok { vm with pc := (ix : Int) }
  else if op = "JUMPZ" then
    match args with
    | [] => .error .indexErr
    | label :: _ =>
      match vm.stack with
      | [] => .error .indexErr
      | v :: rest =>
        if v = 0 then
          match dget vm.labels label with
          | none => .error (.valueErr ("Label desconhecido: " ++ label))
          | some ix => .ok { vm with stack := rest, pc := (ix : Int) }
        else .ok { vm with stack := rest, pc := vm.pc + 1 }
  else if op = "JUMPI" then
    match args with
    | [] => .error .indexErr
    | label :: _ =>
      match vm.stack with
      | [] => .error .indexErr
      | v :: rest =>
        if v ≠ 0 then
          match dget vm.labels label with
          | none => .error (.valueErr ("Label desconhecido: " ++ label))
          | some ix => .ok { vm with stack := rest, pc := (ix : Int) }
        else .ok { vm with stack := rest, pc := vm.pc + 1 }
  else if op = "DECJZ" then
    match args with
    | [] => .error .indexErr
    | [_] => .error .indexErr
    | reg :: label :: _ =>
      match dgetE vm.registers (pyUpper reg) with
      | .error e => .error e
      | .ok r =>
        if r = 0 then
          match dget vm.labels label with
          | none => .error (.valueErr ("Label desconhecido: " ++ label))
          | some ix => .ok { vm with pc := (ix : Int) }
        else
          .ok { vm with registers := dset vm.registers (pyUpper reg) (r - 1),
                        pc := vm.pc + 1 }
  else if op = "OPEN" then
    match args with
    | [] => .error .indexErr
    | t :: _ =>
      .ok { vm with
              video_title := t, video_loaded := true,
              sensors := dset (dset (dset vm.sensors "DURATION" 180)
                "IS_PLAYING" 0) "ENDED" 0,
              registers := dset vm.registers "POS" 0, pc := vm.pc + 1 }
  else if op = "PLAY" then
    if vm.video_loaded = false then
      .error (.runtimeErr "Nenhum vídeo carregado")
    else
      match args with
      | [] =>
        .ok { vm with registers := dset vm.registers "SPEED" 1,
                      sensors := dset vm.sensors "IS_PLAYING" 1,
                      pc := vm.pc + 1 }
      | arg :: _ =>
        match pyIntE arg with
        | .error e => .error e
        | .ok speed =>
          .ok { vm with registers := dset vm.registers "SPEED" speed,
                        sensors := dset vm.sensors "IS_PLAYING" 1,
                        pc := vm.pc + 1 }
  else if op = "PAUSE" then
    match dgetE vm.registers "POS" with
    | .error e => .error e
    | .ok _ =>
      .ok { vm with sensors := dset vm.sensors "IS_PLAYING" 0,
                    pc := vm.pc + 1 }
  else if op = "STOP" then
    .ok { vm with sensors := dset vm.sensors "IS_PLAYING" 0,
                  registers := dset vm.registers "POS" 0, pc := vm.pc + 1 }
  else if op = "SEEK" then
    match args with
    | [] => .error .indexErr
    | arg :: _ =>
      match resolveOperand vm.registers arg with
      | .error e => .error e
      | .ok pos =>
        .ok { vm with registers := dset vm.registers "POS" pos,
                      pc := vm.pc + 1 }
  else if op = "FORWARD" then
    match args with
    | [] => .error .indexErr
    | arg :: _ =>
      match resolveOperand vm.registers arg with
      | .error e => .error e
      | .ok delta =>
        match dgetE vm.registers "POS" with
        | .error e => .error e
        | .ok p =>
          .ok { vm with registers := dset vm.registers "POS" (p + delta),
                        pc := vm.pc + 1 }
  else if op = "REWIND" then
    match args with
    | [] => .error .indexErr
    | arg :: _ =>
      match resolveOperand vm.registers arg with
      | .error e => .error e
      | .ok delta =>
        match dgetE vm.registers "POS" with
        | .error e => .error e
        | .ok p =>
          .ok { vm with
                  registers := dset vm.registers "POS" (max 0 (p - delta)),
                  pc := vm.pc + 1 }
  else if op = "WAIT" then
    match args with
    | [] => .error .indexErr
    | arg :: _ =>
      match resolveOperand vm.registers arg with
      | .error e => .error e
      | .ok time =>
        match dgetE vm.sensors "IS_PLAYING" with
        | .error e => .error e
        | .ok isp =>
          if isp ≠ 0 then
            match dgetE vm.registers "POS" with
            | .error e => .error e
            | .ok p =>
              match dgetE vm.registers "SPEED" with
              | .error e => .error e
              | .ok sp =>
                match dgetE vm.sensors "DURATION" with
                | .error e => .error e
                | .ok dur =>
                  if p + time * sp ≥ dur then
                    .ok { vm with
                            registers := dset (dset vm.registers "POS"
                              (p + time * sp)) "POS" dur,
                            sensors := dset (dset vm.sensors "ENDED" 1)
                              "IS_PLAYING" 0,
                            pc := vm.pc + 1 }
                  else
                    .ok { vm with
                            registers := dset vm.registers "POS"
                              (p + time * sp),
                            pc := vm.pc + 1 }
          else
            match dgetE vm.registers "POS" with
            | .error e => .error e
            | .ok _ => .ok { vm with pc := vm.pc + 1 }
  else if op = "GET_POS" then
    match dgetE vm.registers "POS" with
    | .error e => .error e
    | .ok p => .ok { vm with stack := p :: vm.stack, pc := vm.pc + 1 }
  else if op = "GET_DUR" then
    match dgetE vm.sensors "DURATION" with
    | .error e => .error e
    | .ok d => .ok { vm with stack := d :: vm.stack, pc := vm.pc + 1 }
  else if op = "GET_ENDED" then
    match dgetE vm.sensors "ENDED" with
    | .error e => .error e
    | .ok d => .ok { vm with stack := d :: vm.stack, pc := vm.pc + 1 }
  else if op = "GET_PLAYING" then
    match dgetE vm.sensors "IS_PLAYING" with
    | .error e => .error e
    | .ok d => .ok { vm with stack := d :: vm.stack, pc := vm.pc + 1 }
  else if op = "PRINT" then
    match vm.stack with
    | [] => .error (.runtimeErr "Não é possível fazer PRINT de pilha vazia")
    | _ :: rest => .ok { vm with stack := rest, pc := vm.pc + 1 }
  else if op = "PRINTS" then
    match args with
    | [] => .error .indexErr
    | _ :: _ => .ok { vm with pc := vm.pc + 1 }
  else if op = "HALT" then
    .ok { vm with halted := true }
  else .error (.valueErr ("Opcode desconhecido: " ++ op))

/-- StreamVM.step: the halted check, the pc-range auto-halt, the fetch,
the steps increment and the dispatch. The source increments steps right
after the fetch, before dispatching; since no dispatch arm reads or
writes steps, the increment is applied to the dispatch result here,
which yields the same state. -/
def StreamVM.step (vm : StreamVM) : Except PyErr StreamVM :=
  if vm.halted then .ok vm
  else if ¬ (0 ≤ vm.pc ∧ vm.pc < (vm.program.length : Int)) then
    .ok { vm with halted := true }
  else
    let instr := vm.program.getD vm.pc.toNat ⟨"", []⟩
    match execInstr vm instr.op instr.args with
    | .error e => .error e
    | .ok w => .ok { w with steps := vm.steps + 1 }

/-- n successive calls to step, propagating a raised error. -/
def StreamVM.iter (vm : StreamVM) : Nat → Except PyErr StreamVM
  | 0 => .ok vm
  | n + 1 =>
    match vm.step with
    | .error e => .error e
    | .ok w => StreamVM.iter w n

/-- Outcome of StreamVM.run: normal completion; the step-limit
RuntimeError, keeping the VM state at the raise (the Python object stays
inspectable); or an error raised inside step. -/
inductive RunOutcome where
  | ok (vm : StreamVM)
  | limitErr (vm : StreamVM)
  | stepErr (e : PyErr)
  deriving Repr, DecidableEq

/-- StreamVM.run: drive step until halted becomes true; before each call
to step, raise the step-limit error when steps has reached max_steps. -/
def StreamVM.run (vm : StreamVM) (max_steps : Nat) : RunOutcome :=
  if hh : vm.halted then .ok vm
  else if hs : max_steps ≤ vm.steps then .limitErr vm
  else
    match hst : vm.step with
    | .error e => .stepErr e
    | .ok w => StreamVM.run w max_steps
termination_by (max_steps - vm.steps) * 2 + (if vm.halted then 0 else 1)
decreasing_by
  simp only [StreamVM.step, if_neg hh] at hst
  by_cases hr : 0 ≤ vm.pc ∧ vm.pc < (vm.program.length : Int)
  · rw [if_neg (not_not_intro hr)] at hst
    rcases hx : execInstr vm (vm.program.getD vm.pc.toNat ⟨"", []⟩).op
        (vm.program.getD vm.pc.toNat ⟨"", []⟩).args with e | w0
    · rw [hx] at hst
      exact absurd hst (by simp)
    · rw [hx] at hst
      have hw : w = { w0 with steps := vm.steps + 1 } := by
        cases hst
        rfl
      have h1 : w.steps = vm.steps + 1 := by rw [hw]
      have h2 : (if w.halted = true then 0 else 1) ≤ 1 := by
        split
        · omega
        · omega
      rw [if_neg hh, h1]
      omega
  · rw [if_pos hr] at hst
    have hw : w = { vm with halted := true } := by
      cases hst
      rfl
    rw [hw]
    simp only [if_neg hh]
    simp only [if_pos]
    omega

/-- Comment stripping and whitespace trim applied to one raw source line
by both assembler passes. -/
def stripLine (raw : String) : String :=
  pyStrip (((raw.data.takeWhile (fun c => c != ';')).takeWhile
    (fun c => c != '#')).asString)

/-- Pass 1 of the assembler: walk every line, recording each label with
the index of the next instruction; blank lines are skipped, instruction
lines advance the index. Empty or duplicate label names are load-time
ValueErrors. -/
def collectLabels : List String → Nat → List (String × Nat) →
    Except PyErr (List (String × Nat))
  | [], _, acc => .ok acc
  | raw :: rest, idx, acc =>
    let line := stripLine raw
    if line = "" then collectLabels rest idx acc
    else if chEnds line ':' then
      let label := pyStrip (dropLastChar line)
      if label = "" then .error (.valueErr "Definição de label vazia.")
      else if (dget acc label).isSome then
        .error (.valueErr ("Label duplicado: " ++ label))
      else collectLabels rest idx (dset acc label idx)
    else collectLabels rest (idx + 1) acc

/-- Parse one instruction line (pass 2), with the quoted-string special
case: when the line contains a double quote it is split once on
whitespace, and a remainder that starts and ends with a quote becomes a
single unquoted argument. A line whose tokenization is empty (for
example a lone comma) raises IndexError at args access, as the source
does on tokens[0]. -/
def parseInstrLine (line : String) : Except PyErr Instr :=
  if chContains line '"' then
    match pySplit1 line with
    | (oper, some rest0) =>
      let rest := pyStrip rest0
      if chStarts rest '"' && chEnds rest '"' then
        .ok ⟨pyUpper oper, [innerQuote rest]⟩
      else .ok ⟨pyUpper oper, pySplitWs (commasToSpaces rest)⟩
    | (oper, none) => .ok ⟨pyUpper oper, []⟩
  else
    match pySplitWs (commasToSpaces line) with
    | [] => .error .indexErr
    | tok :: toks => .ok ⟨pyUpper tok, toks⟩

/-- Pass 2 of the assembler: parse every non-blank non-label line into
an instruction, in order. -/
def parseProgram : List String → Except PyErr (List Instr)
  | [] => .ok []
  | raw :: rest =>
    let line := stripLine raw
    if line = "" then parseProgram rest
    else if chEnds line ':' then parseProgram rest
    else
      match parseInstrLine line with
      | .error e => .error e
      | .ok i =>
        match parseProgram rest with
        | .error e => .error e
        | .ok more => .ok (i :: more)

/-- StreamVM.load_program: reset program, labels, stack, pc, halted and
steps, then run the two assembler passes over the source lines.
Registers, sensors, memory and video state are not touched. (The source
mutates in place and can raise midway through assembly; the error case
here discards that partial state, on which no claim depends.) -/
def StreamVM.load_program (vm : StreamVM) (source : String) :
    Except PyErr StreamVM :=
  let lines := pyLines source
  match collectLabels lines 0 [] with
  | .error e => .error e
  | .ok labs =>
    match parseProgram lines with
    | .error e => .error e
    | .ok prog =>
      .ok { vm with program := prog, labels := labs, stack := [],
                    pc := 0, halted := false, steps := 0 }

/-- The assembled body of the counting loop
"label: DECJZ R0 end / GOTO label / end:". -/
def loopProg : List Instr :=
  [⟨"DECJZ", ["R0", "end"]⟩, ⟨"GOTO", ["label"]⟩]

/-- Its label table: end points one past the program, which is valid. -/
def loopLabels : List (String × Nat) := [("label", 0), ("end", 2)]

/-- The counting-loop machine at the loop head with R0 = r and a step
count of s (all other state as freshly constructed). -/
def loopVM (r s : Nat) : StreamVM :=
  { StreamVM.init with
      registers := [("POS", 0), ("SPEED", 1), ("R0", (r : Int)), ("R1", 0)],
      program := loopProg, labels := loopLabels, steps := s }

/-- The counting-loop machine between the DECJZ and the GOTO of one
iteration. -/
def midVM (r s : Nat) : StreamVM :=
  { loopVM r s with pc := 1, steps := s + 1 }

/-- A one-instruction infinite loop: GOTO to its own label. -/
def spinVM : StreamVM :=
  { StreamVM.init with program := [⟨"GOTO", ["loop"]⟩],
                       labels := [("loop", 0)] }

/-- A program consisting of a single HALT. -/
def haltVM : StreamVM :=
  { StreamVM.init with program := [⟨"HALT", []⟩] }

/-- A program consisting of a single PUSH that then falls off the end. -/
def pushVM : StreamVM :=
  { StreamVM.init with program := [⟨"PUSH", ["1"]⟩] }

/-- A machine with a video loaded. -/
def vmLoaded : StreamVM :=
  { StreamVM.init with video_loaded := true }

/-- A machine about to POP into a name that is not a register. -/
def vmPopFoo : StreamVM :=
  { StreamVM.init with stack := [5], program := [⟨"POP", ["foo"]⟩] }

/-- A machine about to run a not-taken JUMPZ to a missing label. -/
def vmJumpzMissing : StreamVM :=
  { StreamVM.init with stack := [1], program := [⟨"JUMPZ", ["missing"]⟩] }

/-- A fresh machine with 1 on the stack. -/
def vmStack1 : StreamVM := { StreamVM.init with stack := [1] }

/-- A machine with a video loaded and R0 = 7. -/
def vmLoaded7 : StreamVM :=
  { StreamVM.init with
      video_loaded := true,
      registers := [("POS", 0), ("SPEED", 1), ("R0", 7), ("R1", 0)] }

/-! ### Association-list (Python dict) lemmas -/

theorem dget_dset_self {α : Type} (d : List (String × α)) (k : String)
    (v : α) : dget (dset d k v) k = some v := by
  induction d with
  | nil => simp [dget, dset]
  | cons kv rest ih =>
    obtain ⟨k1, w⟩ := kv
    by_cases h : k1 = k
    · simp [dset, dget, h]
    · simp [dset, dget, h, ih]

theorem dget_dset_ne {α : Type} (d : List (String × α)) (k k2 : String)
    (v : α) (h : k ≠ k2) : dget (dset d k v) k2 = dget d k2 := by
  induction d with
  | nil => simp [dget, dset, h]
  | cons kv rest ih =>
    obtain ⟨k1, w⟩ := kv
    by_cases h1 : k1 = k
    · subst h1
      simp [dset, dget, h]
    · simp [dset, dget, h1, ih]

theorem dget_isSome_iff_mem {α : Type} (d : List (String × α)) (k : String) :
    (dget d k).isSome = true ↔ k ∈ dkeys d := by
  induction d with
  | nil => simp [dget, dkeys]
  | cons kv rest ih =>
    obtain ⟨k1, w⟩ := kv
    by_cases h : k1 = k
    · simp [dget, dkeys, h]
    · simp [dget, dkeys, h, ih, Ne.symm h]

theorem dkeys_dset_of_isSome {α : Type} (d : List (String × α)) (k : String)
    (v : α) (h : (dget d k).isSome = true) : dkeys (dset d k v) = dkeys d := by
  induction d with
  | nil => simp [dget] at h
  | cons kv rest ih =>
    obtain ⟨k1, w⟩ := kv
    by_cases hk : k1 = k
    · simp [dset, dkeys, hk]
    · simp only [dget, if_neg hk] at h
      have hrest := ih h
      simp only [dkeys] at hrest
      simp [dset, dkeys, hk, hrest]

theorem dgetE_ok {d : List (String × Int)} {k : String} {v : Int}
    (h : dgetE d k = .ok v) : dget d k = some v := by
  unfold dgetE at h
  rcases hd : dget d k with _ | u
  · rw [hd] at h
    exact Except.noConfusion h
  · rw [hd] at h
    cases h
    rfl

/-! ### Floor-division characterization (Python // is Int.fdiv) -/

theorem fdiv_neg_denom (a : Int) (n : Nat) :
    Int.fdiv a (Int.negSucc n) = Int.fdiv (-a) ((n : Int) + 1) := by
  match a with
  | Int.ofNat 0 => rfl
  | Int.ofNat (m + 1) => rfl
  | Int.negSucc m => rfl

theorem fdiv_bounds_pos (a b : Int) (hb : 0 < b) :
    b * Int.fdiv a b ≤ a ∧ a < b * Int.fdiv a b + b := by
  have h1 := Int.fdiv_add_fmod a b
  have h2 := Int.fmod_nonneg' a hb
  have h3 := Int.fmod_lt_of_pos a hb
  generalize hq : b * Int.fdiv a b = x at h1 ⊢
  generalize hr : Int.fmod a b = r at h1 h2 h3
  omega

theorem fdiv_bounds_neg (a b : Int) (hb : b < 0) :
    a ≤ b * Int.fdiv a b ∧ b * Int.fdiv a b + b < a := by
  cases b with
  | ofNat m => exact absurd hb (Int.not_lt.mpr (Int.ofNat_zero_le m))
  | negSucc n =>
    rw [fdiv_neg_denom]
    have hpos : (0 : Int) < (n : Int) + 1 := by omega
    have h := fdiv_bounds_pos (-a) ((n : Int) + 1) hpos
    have hns : (Int.negSucc n) = -((n : Int) + 1) := Int.negSucc_eq n
    rw [hns, Int.neg_mul]
    generalize hq : ((n : Int) + 1) * Int.fdiv (-a) ((n : Int) + 1) = x at h ⊢
    omega

/-! ### Basic facts about step, iter and run -/

theorem step_of_halted (vm : StreamVM) (h : vm.halted = true) :
    vm.step = .ok vm := by
  simp [StreamVM.step, h]

theorem step_autohalt (vm : StreamVM) (h1 : vm.halted = false)
    (h2 : ¬ (0 ≤ vm.pc ∧ vm.pc < (vm.program.length : Int))) :
    vm.step = .ok { vm with halted := true } := by
  simp [StreamVM.step, h1, h2]

theorem step_dispatch (vm : StreamVM) (h1 : vm.halted = false)
    (h2 : 0 ≤ vm.pc ∧ vm.pc < (vm.program.length : Int)) :
    vm.step =
      match execInstr vm (vm.program.getD vm.pc.toNat ⟨"", []⟩).op
          (vm.program.getD vm.pc.toNat ⟨"", []⟩).args with
      | .error e => .error e
      | .ok w => .ok { w with steps := vm.steps + 1 } := by
  simp [StreamVM.step, h1, h2]

theorem step_progress (vm w : StreamVM) (h1 : vm.halted = false)
    (h : vm.step = .ok w) :
    w.steps = vm.steps + 1 ∨ (w.halted = true ∧ w.steps = vm.steps) := by
  by_cases hr : 0 ≤ vm.pc ∧ vm.pc < (vm.program.length : Int)
  · rw [step_dispatch vm h1 hr] at h
    rcases hx : execInstr vm (vm.program.getD vm.pc.toNat ⟨"", []⟩).op
        (vm.program.getD vm.pc.toNat ⟨"", []⟩).args with e | w0
    · rw [hx] at h
      exact Except.noConfusion h
    · rw [hx] at h
      cases h
      left
      rfl
  · rw [step_autohalt vm h1 hr] at h
    cases h
    right
    exact ⟨rfl, rfl⟩

theorem step_steps_mono (vm w : StreamVM) (h : vm.step = .ok w) :
    vm.steps ≤ w.steps := by
  by_cases hh : vm.halted = true
  · rw [step_of_halted vm hh] at h
    cases h
    exact Nat.le_refl _
  · replace hh : vm.halted = false := by
      cases hb : vm.halted
      · rfl
      · exact absurd hb hh
    rcases step_progress vm w hh h with h1 | ⟨h1, h2⟩
    · omega
    · omega

theorem iter_of_halted (vm : StreamVM) (h : vm.halted = true) (n : Nat) :
    vm.iter n = .ok vm := by
  induction n with
  | zero => rfl
  | succ n ih =>
    rw [StreamVM.iter, step_of_halted vm h]
    exact ih

theorem iter_cons (vm w : StreamVM) (n : Nat) (h : vm.step = .ok w) :
    vm.iter (n + 1) = w.iter n := by
  rw [StreamVM.iter, h]

theorem iter_steps_mono (n : Nat) :
    ∀ vm w : StreamVM, vm.iter n = .ok w → vm.steps ≤ w.steps := by
  induction n with
  | zero =>
    intro vm w h
    cases h
    exact Nat.le_refl _
  | succ n ih =>
    intro vm w h
    rw [StreamVM.iter] at h
    rcases hs : vm.step with e | u
    · rw [hs] at h
      exact Except.noConfusion h
    · rw [hs] at h
      exact Nat.le_trans (step_steps_mono vm u hs) (ih u w h)

theorem run_of_halted (vm : StreamVM) (k : Nat) (h : vm.halted = true) :
    vm.run k = .ok vm := by
  rw [StreamVM.run]
  simp [h]

theorem run_limit (vm : StreamVM) (k : Nat) (h1 : vm.halted = false)
    (h2 : k ≤ vm.steps) : vm.run k = .limitErr vm := by
  rw [StreamVM.run]
  simp [h1, h2]

theorem run_step_eq (vm w : StreamVM) (k : Nat) (h1 : vm.halted = false)
    (h2 : vm.steps < k) (h3 : vm.step = .ok w) : vm.run k = w.run k := by
  rw [StreamVM.run]
  have hk : ¬ k ≤ vm.steps := by omega
  simp only [h1, Bool.false_eq_true, dite_false, hk, dite_true]
  split
  · rename_i h4
    rw [h3] at h4
    exact Except.noConfusion h4
  · rename_i w2 h4
    rw [h3] at h4
    cases h4
    rfl

theorem run_nonterm_aux (k : Nat) :
    ∀ (m : Nat) (vm : StreamVM),
      (∀ n, ∃ w, vm.iter n = .ok w ∧ w.halted = false) →
      vm.steps + m = k →
      ∃ w, vm.run k = .limitErr w ∧ w.steps = k ∧ w.halted = false := by
  intro m
  induction m with
  | zero =>
    intro vm hnt hs
    obtain ⟨w0, hw0, hh0⟩ := hnt 0
    have hw : w0 = vm := by
      cases hw0
      rfl
    rw [hw] at hh0
    refine ⟨vm, run_limit vm k hh0 (by omega), by omega, hh0⟩
  | succ m ih =>
    intro vm hnt hs
    obtain ⟨w0, hw0, hh0⟩ := hnt 0
    have hw : w0 = vm := by
      cases hw0
      rfl
    rw [hw] at hh0
    obtain ⟨w1, hw1, hh1⟩ := hnt 1
    rcases hstep : vm.step with e | u
    · rw [StreamVM.iter, hstep] at hw1
      exact Except.noConfusion hw1
    · rw [iter_cons vm u 0 hstep] at hw1
      have hu : w1 = u := by
        cases hw1
        rfl
      rw [hu] at hh1
      have hsteps : u.steps = vm.steps + 1 := by
        rcases step_progress vm u hh0 hstep with h | ⟨h, _⟩
        · exact h
        · rw [h] at hh1
          exact Bool.noConfusion hh1
      have hnt2 : ∀ n, ∃ w, u.iter n = .ok w ∧ w.halted = false := by
        intro n
        have := hnt (n + 1)
        rwa [iter_cons vm u n hstep] at this
      rw [run_step_eq vm u k hh0 (by omega) hstep]
      exact ih u hnt2 (by omega)

theorem run_halt_aux (k : Nat) :
    ∀ (j : Nat) (vm vmp vmf : StreamVM),
      vm.iter j = .ok vmp → vmp.halted = false → vmp.step = .ok vmf →
      vmf.halted = true → vmp.steps < vmf.steps → vmf.steps ≤ k →
      vm.run k = .ok vmf := by
  intro j
  induction j with
  | zero =>
    intro vm vmp vmf hiter hp hstep hf hlt hk
    have hv : vmp = vm := by
      cases hiter
      rfl
    rw [hv] at hp hstep hlt
    rw [run_step_eq vm vmf k hp (by omega) hstep]
    exact run_of_halted vmf k hf
  | succ j ih =>
    intro vm vmp vmf hiter hp hstep hf hlt hk
    rcases hs : vm.step with e | u
    · rw [StreamVM.iter, hs] at hiter
      exact Except.noConfusion hiter
    · rw [iter_cons vm u j hs] at hiter
      by_cases hh : vm.halted = true
      · have hu : u = vm := by
          have := step_of_halted vm hh
          rw [this] at hs
          cases hs
          rfl
        rw [hu] at hiter
        rw [iter_of_halted vm hh j] at hiter
        have : vmp = vm := by
          cases hiter
          rfl
        rw [this, hh] at hp
        exact Bool.noConfusion hp
      · replace hh : vm.halted = false := by
          cases hb : vm.halted
          · rfl
          · exact absurd hb hh
        have hm1 : vm.steps ≤ u.steps := step_steps_mono vm u hs
        have hm2 : u.steps ≤ vmp.steps := iter_steps_mono j u vmp hiter
        rw [run_step_eq vm u k hh (by omega) hs]
        exact ih u vmp vmf hiter hp hstep hf hlt hk

/-! ### The counting loop of claim C6 -/

theorem step_loop_zero (s : Nat) :
    (loopVM 0 s).step = .ok { loopVM 0 s with pc := 2, steps := s + 1 } :=
  rfl

theorem step_loop_mid (r s : Nat) :
    (midVM r s).step = .ok (loopVM r (s + 2)) :=
  rfl

theorem exec_loop_dec (r s : Nat) :
    execInstr (loopVM (r + 1) s) "DECJZ" ["R0", "end"] =
      .ok { loopVM r s with pc := 1 } := by
  have h0 : ((r + 1 : Nat) : Int) ≠ 0 := by omega
  have h1 : ((r + 1 : Nat) : Int) - 1 = (r : Int) := by omega
  have hup : pyUpper "R0" = "R0" := rfl
  simp only [execInstr, hup, loopVM, loopProg, loopLabels, StreamVM.init,
    dgetE, dget, dset]
  simp [h0, h1]
  omega

theorem step_loop_dec (r s : Nat) :
    (loopVM (r + 1) s).step = .ok (midVM r s) := by
  have hpc : (0 : Int) ≤ (loopVM (r + 1) s).pc ∧
      (loopVM (r + 1) s).pc < ((loopVM (r + 1) s).program.length : Int) := by
    show (0 : Int) ≤ 0 ∧ (0 : Int) < ((2 : Nat) : Int)
    omega
  rw [step_dispatch (loopVM (r + 1) s) rfl hpc]
  show (match execInstr (loopVM (r + 1) s) "DECJZ" ["R0", "end"] with
        | .error e => (.error e : Except PyErr StreamVM)
        | .ok w => .ok { w with steps := (loopVM (r + 1) s).steps + 1 }) =
      .ok (midVM r s)
  rw [exec_loop_dec r s]
  rfl

theorem run_loop (r : Nat) :
    ∀ (s m : Nat), s + 2 * r + 2 ≤ m →
      (loopVM r s).run m =
        .ok { loopVM 0 (s + 2 * r + 1) with pc := 2, halted := true } := by
  induction r with
  | zero =>
    intro s m hm
    rw [run_step_eq _ _ m rfl (by show s < m; omega) (step_loop_zero s)]
    have hnr : ¬ (0 ≤ ({ loopVM 0 s with pc := 2, steps := s + 1 } :
          StreamVM).pc ∧
        ({ loopVM 0 s with pc := 2, steps := s + 1 } : StreamVM).pc <
          (({ loopVM 0 s with pc := 2, steps := s + 1 } :
            StreamVM).program.length : Int)) := by
      show ¬ ((0 : Int) ≤ 2 ∧ (2 : Int) < ((2 : Nat) : Int))
      omega
    rw [run_step_eq _ _ m rfl (by show s + 1 < m; omega)
      (step_autohalt _ rfl hnr)]
    rw [run_of_halted _ m rfl]
    rfl
  | succ r ih =>
    intro s m hm
    rw [run_step_eq _ _ m rfl (by show s < m; omega) (step_loop_dec r s)]
    rw [run_step_eq _ _ m rfl (by show s + 1 < m; omega) (step_loop_mid r s)]
    have h2 := ih (s + 2) m (by omega)
    rwa [show s + 2 + 2 * r + 1 = s + 2 * (r + 1) + 1 from by omega] at h2

/-! ### The one-instruction spin loop -/

theorem spin_step (s : Nat) :
    StreamVM.step { spinVM with steps := s } =
      .ok { spinVM with steps := s + 1 } :=
  rfl

theorem spin_iter (n : Nat) :
    ∀ s : Nat, StreamVM.iter { spinVM with steps := s } n =
      .ok { spinVM with steps := s + n } := by
  induction n with
  | zero =>
    intro s
    rfl
  | succ n ih =>
    intro s
    rw [iter_cons _ _ n (spin_step s)]
    have h2 := ih (s + 1)
    rwa [show s + 1 + n = s + (n + 1) from by omega] at h2

/-! ### Register-key preservation of the dispatcher (for claim C7) -/

theorem exec_keys (vm : StreamVM) (op : String) (args : List String)
    (w : StreamVM)
    (hP : (dget vm.registers "POS").isSome = true)
    (hS : (dget vm.registers "SPEED").isSome = true)
    (hpop : ∀ a rest, op = "POP" → args = a :: rest →
      (dget vm.registers (pyUpper a)).isSome = true)
    (h : execInstr vm op args = .ok w) :
    dkeys w.registers = dkeys vm.registers := by
  by_cases h1 : op = "PUSH"
  · subst h1
    simp [execInstr] at h
    repeat' split at h
    all_goals
      first
        | exact Except.noConfusion h
        | (cases h
           first
             | rfl
             | exact dkeys_dset_of_isSome _ _ _ hP
             | exact dkeys_dset_of_isSome _ _ _ hS
             | exact dkeys_dset_of_isSome _ _ _ (hpop _ _ rfl rfl)
             | exact dkeys_dset_of_isSome _ _ _ (hpop _ _ rfl (by assumption))
             | exact dkeys_dset_of_isSome _ _ _
                 (by rw [dgetE_ok (by assumption)]; rfl)
             | rw [dkeys_dset_of_isSome _ _ _ (by rw [dget_dset_self]; rfl),
                   dkeys_dset_of_isSome _ _ _ hP])
  by_cases h2 : op = "POP"
  · subst h2
    simp [execInstr] at h
    repeat' split at h
    all_goals
      first
        | exact Except.noConfusion h
        | (cases h
           first
             | rfl
             | exact dkeys_dset_of_isSome _ _ _ hP
             | exact dkeys_dset_of_isSome _ _ _ hS
             | exact dkeys_dset_of_isSome _ _ _ (hpop _ _ rfl rfl)
             | exact dkeys_dset_of_isSome _ _ _ (hpop _ _ rfl (by assumption))
             | exact dkeys_dset_of_isSome _ _ _
                 (by rw [dgetE_ok (by assumption)]; rfl)
             | rw [dkeys_dset_of_isSome _ _ _ (by rw [dget_dset_self]; rfl),
                   dkeys_dset_of_isSome _ _ _ hP])
  by_cases h3 : op = "LOAD"
  · subst h3
    simp [execInstr] at h
    repeat' split at h
    all_goals
      first
        | exact Except.noConfusion h
        | (cases h
           first
             | rfl
             | exact dkeys_dset_of_isSome _ _ _ hP
             | exact dkeys_dset_of_isSome _ _ _ hS
             | exact dkeys_dset_of_isSome _ _ _ (hpop _ _ rfl rfl)
             | exact dkeys_dset_of_isSome _ _ _ (hpop _ _ rfl (by assumption))
             | exact dkeys_dset_of_isSome _ _ _
                 (by rw [dgetE_ok (by assumption)]; rfl)
             | rw [dkeys_dset_of_isSome _ _ _ (by rw [dget_dset_self]; rfl),
                   dkeys_dset_of_isSome _ _ _ hP])
  by_cases h4 : op = "STORE"
  · subst h4
    simp [execInstr] at h
    repeat' split at h
    all_goals
      first
        | exact Except.noConfusion h
        | (cases h
           first
             | rfl
             | exact dkeys_dset_of_isSome _ _ _ hP
             | exact dkeys_dset_of_isSome _ _ _ hS
             | exact dkeys_dset_of_isSome _ _ _ (hpop _ _ rfl rfl)
             | exact dkeys_dset_of_isSome _ _ _ (hpop _ _ rfl (by assumption))
             | exact dkeys_dset_of_isSome _ _ _
                 (by rw [dgetE_ok (by assumption)]; rfl)
             | rw [dkeys_dset_of_isSome _ _ _ (by rw [dget_dset_self]; rfl),
                   dkeys_dset_of_isSome _ _ _ hP])
  by_cases h5 : op = "ADD"
  · subst h5
    simp [execInstr] at h
    repeat' split at h
    all_goals
      first
        | exact Except.noConfusion h
        | (cases h
           first
             | rfl
             | exact dkeys_dset_of_isSome _ _ _ hP
             | exact dkeys_dset_of_isSome _ _ _ hS
             | exact dkeys_dset_of_isSome _ _ _ (hpop _ _ rfl rfl)
             | exact dkeys_dset_of_isSome _ _ _ (hpop _ _ rfl (by assumption))
             | exact dkeys_dset_of_isSome _ _ _
                 (by rw [dgetE_ok (by assumption)]; rfl)
             | rw [dkeys_dset_of_isSome _ _ _ (by rw [dget_dset_self]; rfl),
                   dkeys_dset_of_isSome _ _ _ hP])
  by_cases h6 : op = "SUB"
  · subst h6
    simp [execInstr] at h
    repeat' split at h
    all_goals
      first
        | exact Except.noConfusion h
        | (cases h
           first
             | rfl
             | exact dkeys_dset_of_isSome _ _ _ hP
             | exact dkeys_dset_of_isSome _ _ _ hS
             | exact dkeys_dset_of_isSome _ _ _ (hpop _ _ rfl rfl)
             | exact dkeys_dset_of_isSome _ _ _ (hpop _ _ rfl (by assumption))
             | exact dkeys_dset_of_isSome _ _ _
                 (by rw [dgetE_ok (by assumption)]; rfl)
             | rw [dkeys_dset_of_isSome _ _ _ (by rw [dget_dset_self]; rfl),
                   dkeys_dset_of_isSome _ _ _ hP])
  by_cases h7 : op = "MUL"
  · subst h7
    simp [execInstr] at h
    repeat' split at h
    all_goals
      first
        | exact Except.noConfusion h
        | (cases h
           first
             | rfl
             | exact dkeys_dset_of_isSome _ _ _ hP
             | exact dkeys_dset_of_isSome _ _ _ hS
             | exact dkeys_dset_of_isSome _ _ _ (hpop _ _ rfl rfl)
             | exact dkeys_dset_of_isSome _ _ _ (hpop _ _ rfl (by assumption))
             | exact dkeys_dset_of_isSome _ _ _
                 (by rw [dgetE_ok (by assumption)]; rfl)
             | rw [dkeys_dset_of_isSome _ _ _ (by rw [dget_dset_self]; rfl),
                   dkeys_dset_of_isSome _ _ _ hP])
  by_cases h8 : op = "DIV"
  · subst h8
    simp [execInstr] at h
    repeat' split at h
    all_goals
      first
        | exact Except.noConfusion h
        | (cases h
           first
             | rfl
             | exact dkeys_dset_of_isSome _ _ _ hP
             | exact dkeys_dset_of_isSome _ _ _ hS
             | exact dkeys_dset_of_isSome _ _ _ (hpop _ _ rfl rfl)
             | exact dkeys_dset_of_isSome _ _ _ (hpop _ _ rfl (by assumption))
             | exact dkeys_dset_of_isSome _ _ _
                 (by rw [dgetE_ok (by assumption)]; rfl)
             | rw [dkeys_dset_of_isSome _ _ _ (by rw [dget_dset_self]; rfl),
                   dkeys_dset_of_isSome _ _ _ hP])
  by_cases h9 : op = "NEG"
  · subst h9
    simp [execInstr] at h
    repeat' split at h
    all_goals
      first
        | exact Except.noConfusion h
        | (cases h
           first
             | rfl
             | exact dkeys_dset_of_isSome _ _ _ hP
             | exact dkeys_dset_of_isSome _ _ _ hS
             | exact dkeys_dset_of_isSome _ _ _ (hpop _ _ rfl rfl)
             | exact dkeys_dset_of_isSome _ _ _ (hpop _ _ rfl (by assumption))
             | exact dkeys_dset_of_isSome _ _ _
                 (by rw [dgetE_ok (by assumption)]; rfl)
             | rw [dkeys_dset_of_isSome _ _ _ (by rw [dget_dset_self]; rfl),
                   dkeys_dset_of_isSome _ _ _ hP])
  by_cases h10 : op = "EQ"
  · subst h10
    simp [execInstr] at h
    repeat' split at h
    all_goals
      first
        | exact Except.noConfusion h
        | (cases h
           first
             | rfl
             | exact dkeys_dset_of_isSome _ _ _ hP
             | exact dkeys_dset_of_isSome _ _ _ hS
             | exact dkeys_dset_of_isSome _ _ _ (hpop _ _ rfl rfl)
             | exact dkeys_dset_of_isSome _ _ _ (hpop _ _ rfl (by assumption))
             | exact dkeys_dset_of_isSome _ _ _
                 (by rw [dgetE_ok (by assumption)]; rfl)
             | rw [dkeys_dset_of_isSome _ _ _ (by rw [dget_dset_self]; rfl),
                   dkeys_dset_of_isSome _ _ _ hP])
  by_cases h11 : op = "NE"
  · subst h11
    simp [execInstr] at h
    repeat' split at h
    all_goals
      first
        | exact Except.noConfusion h
        | (cases h
           first
             | rfl
             | exact dkeys_dset_of_isSome _ _ _ hP
             | exact dkeys_dset_of_isSome _ _ _ hS
             | exact dkeys_dset_of_isSome _ _ _ (hpop _ _ rfl rfl)
             | exact dkeys_dset_of_isSome _ _ _ (hpop _ _ rfl (by assumption))
             | exact dkeys_dset_of_isSome _ _ _
                 (by rw [dgetE_ok (by assumption)]; rfl)
             | rw [dkeys_dset_of_isSome _ _ _ (by rw [dget_dset_self]; rfl),
                   dkeys_dset_of_isSome _ _ _ hP])
  by_cases h12 : op = "LT"
  · subst h12
    simp [execInstr] at h
    repeat' split at h
    all_goals
      first
        | exact Except.noConfusion h
        | (cases h
           first
             | rfl
             | exact dkeys_dset_of_isSome _ _ _ hP
             | exact dkeys_dset_of_isSome _ _ _ hS
             | exact dkeys_dset_of_isSome _ _ _ (hpop _ _ rfl rfl)
             | exact dkeys_dset_of_isSome _ _ _ (hpop _ _ rfl (by assumption))
             | exact dkeys_dset_of_isSome _ _ _
                 (by rw [dgetE_ok (by assumption)]; rfl)
             | rw [dkeys_dset_of_isSome _ _ _ (by rw [dget_dset_self]; rfl),
                   dkeys_dset_of_isSome _ _ _ hP])
  by_cases h13 : op = "LE"
  · subst h13
    simp [execInstr] at h
    repeat' split at h
    all_goals
      first
        | exact Except.noConfusion h
        | (cases h
           first
             | rfl
             | exact dkeys_dset_of_isSome _ _ _ hP
             | exact dkeys_dset_of_isSome _ _ _ hS
             | exact dkeys_dset_of_isSome _ _ _ (hpop _ _ rfl rfl)
             | exact dkeys_dset_of_isSome _ _ _ (hpop _ _ rfl (by assumption))
             | exact dkeys_dset_of_isSome _ _ _
                 (by rw [dgetE_ok (by assumption)]; rfl)
             | rw [dkeys_dset_of_isSome _ _ _ (by rw [dget_dset_self]; rfl),
                   dkeys_dset_of_isSome _ _ _ hP])
  by_cases h14 : op = "GT"
  · subst h14
    simp [execInstr] at h
    repeat' split at h
    all_goals
      first
        | exact Except.noConfusion h
        | (cases h
           first
             | rfl
             | exact dkeys_dset_of_isSome _ _ _ hP
             | exact dkeys_dset_of_isSome _ _ _ hS
             | exact dkeys_dset_of_isSome _ _ _ (hpop _ _ rfl rfl)
             | exact dkeys_dset_of_isSome _ _ _ (hpop _ _ rfl (by assumption))
             | exact dkeys_dset_of_isSome _ _ _
                 (by rw [dgetE_ok (by assumption)]; rfl)
             | rw [dkeys_dset_of_isSome _ _ _ (by rw [dget_dset_self]; rfl),
                   dkeys_dset_of_isSome _ _ _ hP])
  by_cases h15 : op = "GE"
  · subst h15
    simp [execInstr] at h
    repeat' split at h
    all_goals
      first
        | exact Except.noConfusion h
        | (cases h
           first
             | rfl
             | exact dkeys_dset_of_isSome _ _ _ hP
             | exact dkeys_dset_of_isSome _ _ _ hS
             | exact dkeys_dset_of_isSome _ _ _ (hpop _ _ rfl rfl)
             | exact dkeys_dset_of_isSome _ _ _ (hpop _ _ rfl (by assumption))
             | exact dkeys_dset_of_isSome _ _ _
                 (by rw [dgetE_ok (by assumption)]; rfl)
             | rw [dkeys_dset_of_isSome _ _ _ (by rw [dget_dset_self]; rfl),
                   dkeys_dset_of_isSome _ _ _ hP])
  by_cases h16 : op = "GOTO"
  · subst h16
    simp [execInstr] at h
    repeat' split at h
    all_goals
      first
        | exact Except.noConfusion h
        | (cases h
           first
             | rfl
             | exact dkeys_dset_of_isSome _ _ _ hP
             | exact dkeys_dset_of_isSome _ _ _ hS
             | exact dkeys_dset_of_isSome _ _ _ (hpop _ _ rfl rfl)
             | exact dkeys_dset_of_isSome _ _ _ (hpop _ _ rfl (by assumption))
             | exact dkeys_dset_of_isSome _ _ _
                 (by rw [dgetE_ok (by assumption)]; rfl)
             | rw [dkeys_dset_of_isSome _ _ _ (by rw [dget_dset_self]; rfl),
                   dkeys_dset_of_isSome _ _ _ hP])
  by_cases h17 : op = "JUMPZ"
  · subst h17
    simp [execInstr] at h
    repeat' split at h
    all_goals
      first
        | exact Except.noConfusion h
        | (cases h
           first
             | rfl
             | exact dkeys_dset_of_isSome _ _ _ hP
             | exact dkeys_dset_of_isSome _ _ _ hS
             | exact dkeys_dset_of_isSome _ _ _ (hpop _ _ rfl rfl)
             | exact dkeys_dset_of_isSome _ _ _ (hpop _ _ rfl (by assumption))
             | exact dkeys_dset_of_isSome _ _ _
                 (by rw [dgetE_ok (by assumption)]; rfl)
             | rw [dkeys_dset_of_isSome _ _ _ (by rw [dget_dset_self]; rfl),
                   dkeys_dset_of_isSome _ _ _ hP])
  by_cases h18 : op = "JUMPI"
  · subst h18
    simp [execInstr] at h
    repeat' split at h
    all_goals
      first
        | exact Except.noConfusion h
        | (cases h
           first
             | rfl
             | exact dkeys_dset_of_isSome _ _ _ hP
             | exact dkeys_dset_of_isSome _ _ _ hS
             | exact dkeys_dset_of_isSome _ _ _ (hpop _ _ rfl rfl)
             | exact dkeys_dset_of_isSome _ _ _ (hpop _ _ rfl (by assumption))
             | exact dkeys_dset_of_isSome _ _ _
                 (by rw [dgetE_ok (by assumption)]; rfl)
             | rw [dkeys_dset_of_isSome _ _ _ (by rw [dget_dset_self]; rfl),
                   dkeys_dset_of_isSome _ _ _ hP])
  by_cases h19 : op = "DECJZ"
  · subst h19
    simp [execInstr] at h
    repeat' split at h
    all_goals
      first
        | exact Except.noConfusion h
        | (cases h
           first
             | rfl
             | exact dkeys_dset_of_isSome _ _ _ hP
             | exact dkeys_dset_of_isSome _ _ _ hS
             | exact dkeys_dset_of_isSome _ _ _ (hpop _ _ rfl rfl)
             | exact dkeys_dset_of_isSome _ _ _ (hpop _ _ rfl (by assumption))
             | exact dkeys_dset_of_isSome _ _ _
                 (by rw [dgetE_ok (by assumption)]; rfl)
             | rw [dkeys_dset_of_isSome _ _ _ (by rw [dget_dset_self]; rfl),
                   dkeys_dset_of_isSome _ _ _ hP])
  by_cases h20 : op = "OPEN"
  · subst h20
    simp [execInstr] at h
    repeat' split at h
    all_goals
      first
        | exact Except.noConfusion h
        | (cases h
           first
             | rfl
             | exact dkeys_dset_of_isSome _ _ _ hP
             | exact dkeys_dset_of_isSome _ _ _ hS
             | exact dkeys_dset_of_isSome _ _ _ (hpop _ _ rfl rfl)
             | exact dkeys_dset_of_isSome _ _ _ (hpop _ _ rfl (by assumption))
             | exact dkeys_dset_of_isSome _ _ _
                 (by rw [dgetE_ok (by assumption)]; rfl)
             | rw [dkeys_dset_of_isSome _ _ _ (by rw [dget_dset_self]; rfl),
                   dkeys_dset_of_isSome _ _ _ hP])
  by_cases h21 : op = "PLAY"
  · subst h21
    simp [execInstr] at h
    repeat' split at h
    all_goals
      first
        | exact Except.noConfusion h
        | (cases h
           first
             | rfl
             | exact dkeys_dset_of_isSome _ _ _ hP
             | exact dkeys_dset_of_isSome _ _ _ hS
             | exact dkeys_dset_of_isSome _ _ _ (hpop _ _ rfl rfl)
             | exact dkeys_dset_of_isSome _ _ _ (hpop _ _ rfl (by assumption))
             | exact dkeys_dset_of_isSome _ _ _
                 (by rw [dgetE_ok (by assumption)]; rfl)
             | rw [dkeys_dset_of_isSome _ _ _ (by rw [dget_dset_self]; rfl),
                   dkeys_dset_of_isSome _ _ _ hP])
  by_cases h22 : op = "PAUSE"
  · subst h22
    simp [execInstr] at h
    repeat' split at h
    all_goals
      first
        | exact Except.noConfusion h
        | (cases h
           first
             | rfl
             | exact dkeys_dset_of_isSome _ _ _ hP
             | exact dkeys_dset_of_isSome _ _ _ hS
             | exact dkeys_dset_of_isSome _ _ _ (hpop _ _ rfl rfl)
             | exact dkeys_dset_of_isSome _ _ _ (hpop _ _ rfl (by assumption))
             | exact dkeys_dset_of_isSome _ _ _
                 (by rw [dgetE_ok (by assumption)]; rfl)
             | rw [dkeys_dset_of_isSome _ _ _ (by rw [dget_dset_self]; rfl),
                   dkeys_dset_of_isSome _ _ _ hP])
  by_cases h23 : op = "STOP"
  · subst h23
    simp [execInstr] at h
    repeat' split at h
    all_goals
      first
        | exact Except.noConfusion h
        | (cases h
           first
             | rfl
             | exact dkeys_dset_of_isSome _ _ _ hP
             | exact dkeys_dset_of_isSome _ _ _ hS
             | exact dkeys_dset_of_isSome _ _ _ (hpop _ _ rfl rfl)
             | exact dkeys_dset_of_isSome _ _ _ (hpop _ _ rfl (by assumption))
             | exact dkeys_dset_of_isSome _ _ _
                 (by rw [dgetE_ok (by assumption)]; rfl)
             | rw [dkeys_dset_of_isSome _ _ _ (by rw [dget_dset_self]; rfl),
                   dkeys_dset_of_isSome _ _ _ hP])
  by_cases h24 : op = "SEEK"
  · subst h24
    simp [execInstr] at h
    repeat' split at h
    all_goals
      first
        | exact Except.noConfusion h
        | (cases h
           first
             | rfl
             | exact dkeys_dset_of_isSome _ _ _ hP
             | exact dkeys_dset_of_isSome _ _ _ hS
             | exact dkeys_dset_of_isSome _ _ _ (hpop _ _ rfl rfl)
             | exact dkeys_dset_of_isSome _ _ _ (hpop _ _ rfl (by assumption))
             | exact dkeys_dset_of_isSome _ _ _
                 (by rw [dgetE_ok (by assumption)]; rfl)
             | rw [dkeys_dset_of_isSome _ _ _ (by rw [dget_dset_self]; rfl),
                   dkeys_dset_of_isSome _ _ _ hP])
  by_cases h25 : op = "FORWARD"
  · subst h25
    simp [execInstr] at h
    repeat' split at h
    all_goals
      first
        | exact Except.noConfusion h
        | (cases h
           first
             | rfl
             | exact dkeys_dset_of_isSome _ _ _ hP
             | exact dkeys_dset_of_isSome _ _ _ hS
             | exact dkeys_dset_of_isSome _ _ _ (hpop _ _ rfl rfl)
             | exact dkeys_dset_of_isSome _ _ _ (hpop _ _ rfl (by assumption))
             | exact dkeys_dset_of_isSome _ _ _
                 (by rw [dgetE_ok (by assumption)]; rfl)
             | rw [dkeys_dset_of_isSome _ _ _ (by rw [dget_dset_self]; rfl),
                   dkeys_dset_of_isSome _ _ _ hP])
  by_cases h26 : op = "REWIND"
  · subst h26
    simp [execInstr] at h
    repeat' split at h
    all_goals
      first
        | exact Except.noConfusion h
        | (cases h
           first
             | rfl
             | exact dkeys_dset_of_isSome _ _ _ hP
             | exact dkeys_dset_of_isSome _ _ _ hS
             | exact dkeys_dset_of_isSome _ _ _ (hpop _ _ rfl rfl)
             | exact dkeys_dset_of_isSome _ _ _ (hpop _ _ rfl (by assumption))
             | exact dkeys_dset_of_isSome _ _ _
                 (by rw [dgetE_ok (by assumption)]; rfl)
             | rw [dkeys_dset_of_isSome _ _ _ (by rw [dget_dset_self]; rfl),
                   dkeys_dset_of_isSome _ _ _ hP])
  by_cases h27 : op = "WAIT"
  · subst h27
    simp [execInstr] at h
    repeat' split at h
    all_goals
      first
        | exact Except.noConfusion h
        | (cases h
           first
             | rfl
             | exact dkeys_dset_of_isSome _ _ _ hP
             | exact dkeys_dset_of_isSome _ _ _ hS
             | exact dkeys_dset_of_isSome _ _ _ (hpop _ _ rfl rfl)
             | exact dkeys_dset_of_isSome _ _ _ (hpop _ _ rfl (by assumption))
             | exact dkeys_dset_of_isSome _ _ _
                 (by rw [dgetE_ok (by assumption)]; rfl)
             | rw [dkeys_dset_of_isSome _ _ _ (by rw [dget_dset_self]; rfl),
                   dkeys_dset_of_isSome _ _ _ hP])
  by_cases h28 : op = "GET_POS"
  · subst h28
    simp [execInstr] at h
    repeat' split at h
    all_goals
      first
        | exact Except.noConfusion h
        | (cases h
           first
             | rfl
             | exact dkeys_dset_of_isSome _ _ _ hP
             | exact dkeys_dset_of_isSome _ _ _ hS
             | exact dkeys_dset_of_isSome _ _ _ (hpop _ _ rfl rfl)
             | exact dkeys_dset_of_isSome _ _ _ (hpop _ _ rfl (by assumption))
             | exact dkeys_dset_of_isSome _ _ _
                 (by rw [dgetE_ok (by assumption)]; rfl)
             | rw [dkeys_dset_of_isSome _ _ _ (by rw [dget_dset_self]; rfl),
                   dkeys_dset_of_isSome _ _ _ hP])
  by_cases h29 : op = "GET_DUR"
  · subst h29
    simp [execInstr] at h
    repeat' split at h
    all_goals
      first
        | exact Except.noConfusion h
        | (cases h
           first
             | rfl
             | exact dkeys_dset_of_isSome _ _ _ hP
             | exact dkeys_dset_of_isSome _ _ _ hS
             | exact dkeys_dset_of_isSome _ _ _ (hpop _ _ rfl rfl)
             | exact dkeys_dset_of_isSome _ _ _ (hpop _ _ rfl (by assumption))
             | exact dkeys_dset_of_isSome _ _ _
                 (by rw [dgetE_ok (by assumption)]; rfl)
             | rw [dkeys_dset_of_isSome _ _ _ (by rw [dget_dset_self]; rfl),
                   dkeys_dset_of_isSome _ _ _ hP])
  by_cases h30 : op = "GET_ENDED"
  · subst h30
    simp [execInstr] at h
    repeat' split at h
    all_goals
      first
        | exact Except.noConfusion h
        | (cases h
           first
             | rfl
             | exact dkeys_dset_of_isSome _ _ _ hP
             | exact dkeys_dset_of_isSome _ _ _ hS
             | exact dkeys_dset_of_isSome _ _ _ (hpop _ _ rfl rfl)
             | exact dkeys_dset_of_isSome _ _ _ (hpop _ _ rfl (by assumption))
             | exact dkeys_dset_of_isSome _ _ _
                 (by rw [dgetE_ok (by assumption)]; rfl)
             | rw [dkeys_dset_of_isSome _ _ _ (by rw [dget_dset_self]; rfl),
                   dkeys_dset_of_isSome _ _ _ hP])
  by_cases h31 : op = "GET_PLAYING"
  · subst h31
    simp [execInstr] at h
    repeat' split at h
    all_goals
      first
        | exact Except.noConfusion h
        | (cases h
           first
             | rfl
             | exact dkeys_dset_of_isSome _ _ _ hP
             | exact dkeys_dset_of_isSome _ _ _ hS
             | exact dkeys_dset_of_isSome _ _ _ (hpop _ _ rfl rfl)
             | exact dkeys_dset_of_isSome _ _ _ (hpop _ _ rfl (by assumption))
             | exact dkeys_dset_of_isSome _ _ _
                 (by rw [dgetE_ok (by assumption)]; rfl)
             | rw [dkeys_dset_of_isSome _ _ _ (by rw [dget_dset_self]; rfl),
                   dkeys_dset_of_isSome _ _ _ hP])
  by_cases h32 : op = "PRINT"
  · subst h32
    simp [execInstr] at h
    repeat' split at h
    all_goals
      first
        | exact Except.noConfusion h
        | (cases h
           first
             | rfl
             | exact dkeys_dset_of_isSome _ _ _ hP
             | exact dkeys_dset_of_isSome _ _ _ hS
             | exact dkeys_dset_of_isSome _ _ _ (hpop _ _ rfl rfl)
             | exact dkeys_dset_of_isSome _ _ _ (hpop _ _ rfl (by assumption))
             | exact dkeys_dset_of_isSome _ _ _
                 (by rw [dgetE_ok (by assumption)]; rfl)
             | rw [dkeys_dset_of_isSome _ _ _ (by rw [dget_dset_self]; rfl),
                   dkeys_dset_of_isSome _ _ _ hP])
  by_cases h33 : op = "PRINTS"
  · subst h33
    simp [execInstr] at h
    repeat' split at h
    all_goals
      first
        | exact Except.noConfusion h
        | (cases h
           first
             | rfl
             | exact dkeys_dset_of_isSome _ _ _ hP
             | exact dkeys_dset_of_isSome _ _ _ hS
             | exact dkeys_dset_of_isSome _ _ _ (hpop _ _ rfl rfl)
             | exact dkeys_dset_of_isSome _ _ _ (hpop _ _ rfl (by assumption))
             | exact dkeys_dset_of_isSome _ _ _
                 (by rw [dgetE_ok (by assumption)]; rfl)
             | rw [dkeys_dset_of_isSome _ _ _ (by rw [dget_dset_self]; rfl),
                   dkeys_dset_of_isSome _ _ _ hP])
  by_cases h34 : op = "HALT"
  · subst h34
    simp [execInstr] at h
    repeat' split at h
    all_goals
      first
        | exact Except.noConfusion h
        | (cases h
           first
             | rfl
             | exact dkeys_dset_of_isSome _ _ _ hP
             | exact dkeys_dset_of_isSome _ _ _ hS
             | exact dkeys_dset_of_isSome _ _ _ (hpop _ _ rfl rfl)
             | exact dkeys_dset_of_isSome _ _ _ (hpop _ _ rfl (by assumption))
             | exact dkeys_dset_of_isSome _ _ _
                 (by rw [dgetE_ok (by assumption)]; rfl)
             | rw [dkeys_dset_of_isSome _ _ _ (by rw [dget_dset_self]; rfl),
                   dkeys_dset_of_isSome _ _ _ hP])
  simp [execInstr, h1, h2, h3, h4, h5, h6, h7, h8, h9, h10, h11, h12, h13, h14, h15, h16, h17, h18, h19, h20, h21, h22, h23, h24, h25, h26, h27, h28, h29, h30, h31, h32, h33, h34] at h

/-! ### Claim theorems -/

/-- Claim C1: one call to step executes at most one instruction and
increments steps by exactly one iff an instruction was dispatched: a
halted machine is returned unchanged; with pc outside [0, len(program))
only halted is set to true, with no step increment and no other change;
otherwise the instruction at pc is fetched, steps is incremented by one,
and the instruction is dispatched. -/
theorem c1_step_structure (vm : StreamVM) :
    (vm.halted = true → vm.step = .ok vm) ∧
    (vm.halted = false →
      ¬ (0 ≤ vm.pc ∧ vm.pc < (vm.program.length : Int)) →
      vm.step = .ok { vm with halted := true }) ∧
    (vm.halted = false →
      (0 ≤ vm.pc ∧ vm.pc < (vm.program.length : Int)) →
      vm.step =
        match execInstr vm (vm.program.getD vm.pc.toNat ⟨"", []⟩).op
            (vm.program.getD vm.pc.toNat ⟨"", []⟩).args with
        | .error e => .error e
        | .ok w => .ok { w with steps := vm.steps + 1 }) ∧
    (vm.halted = false →
      (0 ≤ vm.pc ∧ vm.pc < (vm.program.length : Int)) →
      ∀ w, vm.step = .ok w → w.steps = vm.steps + 1) := by
  refine ⟨step_of_halted vm, step_autohalt vm, step_dispatch vm, ?_⟩
  intro h1 h2 w h
  rw [step_dispatch vm h1 h2] at h
  rcases hx : execInstr vm (vm.program.getD vm.pc.toNat ⟨"", []⟩).op
      (vm.program.getD vm.pc.toNat ⟨"", []⟩).args with e | w0
  · rw [hx] at h
    exact Except.noConfusion h
  · rw [hx] at h
    cases h
    rfl

/-- Witness for C1 at three concrete machines: a halted machine, a
machine with an empty program (pc out of range), and a one-instruction
machine whose dispatched step increments the counter. -/
theorem c1_step_structure_witness :
    StreamVM.step { StreamVM.init with halted := true } =
      .ok { StreamVM.init with halted := true } ∧
    StreamVM.step StreamVM.init = .ok { StreamVM.init with halted := true } ∧
    ({ pushVM with stack := [1], pc := 1, steps := 1 } : StreamVM).steps =
      pushVM.steps + 1 :=
  ⟨(c1_step_structure { StreamVM.init with halted := true }).1 rfl,
   (c1_step_structure StreamVM.init).2.1 rfl (by decide),
   (c1_step_structure pushVM).2.2.2 rfl (by decide) _ (by decide)⟩

/-- Claim C2: WAIT with a resolvable operand t: when IS_PLAYING is 1 it
sets POS to POS + t·SPEED and, exactly when the new POS reaches
DURATION, clamps POS to DURATION, sets ENDED to 1 and IS_PLAYING to 0;
when IS_PLAYING is 0 it changes nothing but pc (so POS and all sensors
are untouched). -/
theorem c2_wait (vm : StreamVM) (x : String) (t p sp d e0 : Int)
    (hx : resolveOperand vm.registers x = .ok t)
    (hp : dget vm.registers "POS" = some p)
    (hsp : dget vm.registers "SPEED" = some sp)
    (hd : dget vm.sensors "DURATION" = some d)
    (he : dget vm.sensors "ENDED" = some e0) :
    (dget vm.sensors "IS_PLAYING" = some 1 →
      ∃ w, execInstr vm "WAIT" [x] = .ok w ∧
        dget w.registers "POS" =
          some (if p + t * sp ≥ d then d else p + t * sp) ∧
        dget w.sensors "ENDED" = some (if p + t * sp ≥ d then 1 else e0) ∧
        dget w.sensors "IS_PLAYING" =
          some (if p + t * sp ≥ d then 0 else 1)) ∧
    (dget vm.sensors "IS_PLAYING" = some 0 →
      execInstr vm "WAIT" [x] = .ok { vm with pc := vm.pc + 1 }) := by
  constructor
  · intro hisp
    by_cases hcl : p + t * sp ≥ d
    · refine ⟨{ vm with
          registers := dset (dset vm.registers "POS" (p + t * sp)) "POS" d,
          sensors := dset (dset vm.sensors "ENDED" 1) "IS_PLAYING" 0,
          pc := vm.pc + 1 }, ?_, ?_, ?_, ?_⟩
      · simp [execInstr, dgetE, hx, hp, hsp, hd, hisp, hcl]
      · simp [hcl, dget_dset_self]
      · simp only [hcl, if_pos]
        rw [dget_dset_ne _ "IS_PLAYING" "ENDED" _ (by decide),
          dget_dset_self]
      · simp [hcl, dget_dset_self]
    · refine ⟨{ vm with
          registers := dset vm.registers "POS" (p + t * sp),
          pc := vm.pc + 1 }, ?_, ?_, ?_, ?_⟩
      · simp [execInstr, dgetE, hx, hp, hsp, hd, hisp, hcl]
      · simp [hcl, dget_dset_self]
      · simp [hcl, he]
      · simp [hcl, hisp]
  · intro hisp
    simp [execInstr, dgetE, hx, hp, hsp, hd, hisp]

/-- Witness for C2 at two concrete machines: one playing (WAIT 4 at
speed 1 with DURATION 10 moves POS from 0 to 4, no clamp), one not
playing (WAIT 4 changes only pc). -/
theorem c2_wait_witness :
    (∃ w, execInstr { StreamVM.init with
        sensors := [("DURATION", 10), ("IS_PLAYING", 1), ("ENDED", 0)] }
        "WAIT" ["4"] = .ok w ∧
      dget w.registers "POS" =
        some (if (0 : Int) + 4 * 1 ≥ 10 then 10 else 0 + 4 * 1) ∧
      dget w.sensors "ENDED" =
        some (if (0 : Int) + 4 * 1 ≥ 10 then 1 else 0) ∧
      dget w.sensors "IS_PLAYING" =
        some (if (0 : Int) + 4 * 1 ≥ 10 then 0 else 1)) ∧
    execInstr { StreamVM.init with
        sensors := [("DURATION", 10), ("IS_PLAYING", 0), ("ENDED", 0)] }
        "WAIT" ["4"] =
      .ok { { StreamVM.init with
          sensors := [("DURATION", 10), ("IS_PLAYING", 0), ("ENDED", 0)] }
          with pc := ({ StreamVM.init with
            sensors := [("DURATION", 10), ("IS_PLAYING", 0), ("ENDED", 0)] } :
              StreamVM).pc + 1 } :=
  ⟨(c2_wait { StreamVM.init with
      sensors := [("DURATION", 10), ("IS_PLAYING", 1), ("ENDED", 0)] }
      "4" 4 0 1 10 0 (by decide) (by decide) (by decide) (by decide)
      (by decide)).1 (by decide),
   (c2_wait { StreamVM.init with
      sensors := [("DURATION", 10), ("IS_PLAYING", 0), ("ENDED", 0)] }
      "4" 4 0 1 10 0 (by decide) (by decide) (by decide) (by decide)
      (by decide)).2 (by decide)⟩

/-- Claim C3: with b on top of the stack above a, DIV raises the
division-by-zero RuntimeError iff b = 0, and otherwise replaces a and b
by the floor quotient of a by b — the quotient rounding toward negative
infinity, characterized by the bracketing inequalities for either sign
of b. -/
theorem c3_div (vm : StreamVM) (a b : Int) (rest : List Int)
    (hs : vm.stack = b :: a :: rest) :
    (execInstr vm "DIV" [] = .error (.runtimeErr "Divisão por zero") ↔
      b = 0) ∧
    (b ≠ 0 →
      execInstr vm "DIV" [] =
        .ok { vm with stack := Int.fdiv a b :: rest, pc := vm.pc + 1 } ∧
      (0 < b → b * Int.fdiv a b ≤ a ∧ a < b * Int.fdiv a b + b) ∧
      (b < 0 → a ≤ b * Int.fdiv a b ∧ b * Int.fdiv a b + b < a)) := by
  constructor
  · constructor
    · intro he
      by_contra hb
      simp [execInstr, hs, hb] at he
    · intro hb
      simp [execInstr, hs, hb]
  · intro hb
    exact ⟨by simp [execInstr, hs, hb], fdiv_bounds_pos a b,
      fdiv_bounds_neg a b⟩

/-- Witness for C3 at concrete stacks: 7 div -2 gives the floor
quotient -4 with its bracketing, and division by zero fails. -/
theorem c3_div_witness :
    execInstr { StreamVM.init with stack := [-2, 7] } "DIV" [] =
      .ok { StreamVM.init with stack := [Int.fdiv 7 (-2)], pc := 1 } ∧
    ((7 : Int) ≤ (-2) * Int.fdiv 7 (-2) ∧
      (-2) * Int.fdiv 7 (-2) + (-2) < 7) ∧
    execInstr { StreamVM.init with stack := [0, 7] } "DIV" [] =
      .error (.runtimeErr "Divisão por zero") := by
  have h1 := c3_div { StreamVM.init with stack := [-2, 7] } 7 (-2) [] rfl
  have h2 := c3_div { StreamVM.init with stack := [0, 7] } 7 0 [] rfl
  exact ⟨(h1.2 (by decide)).1, (h1.2 (by decide)).2.2 (by decide),
    h2.1.mpr rfl⟩

/-- Claim C4 counterexample: with a video loaded and R0 = 7, the operand
R0 names a register and resolve(R0) = 7, yet PLAY R0 raises a ValueError
instead of succeeding with SPEED = 7 — PLAY does not apply the
literal-or-register rule the claim asserts. -/
theorem c4_play_counterexample :
    vmLoaded7.video_loaded = true ∧
    dget vmLoaded7.registers "R0" = some 7 ∧
    resolveOperand vmLoaded7.registers "R0" = .ok 7 ∧
    ∀ w, execInstr vmLoaded7 "PLAY" ["R0"] ≠ .ok w := by
  refine ⟨rfl, by decide, by decide, ?_⟩
  intro w h
  rw [show execInstr vmLoaded7 "PLAY" ["R0"] =
      .error (.valueErr "invalid literal for int with base 10: R0")
    from by decide] at h
  exact Except.noConfusion h

/-- Claim C4 (amended): PLAY fails with a RuntimeError when no video is
loaded; with a video loaded, an explicit operand is parsed as a signed
decimal integer only (a register name raises a ValueError — PLAY does
not use the literal-or-register rule), an omitted operand defaults
SPEED to 1, and both success cases set IS_PLAYING to 1. -/
theorem c4_play (vm : StreamVM) (s : String) (k : Int) :
    (vm.video_loaded = false →
      execInstr vm "PLAY" [] =
        .error (.runtimeErr "Nenhum vídeo carregado") ∧
      execInstr vm "PLAY" [s] =
        .error (.runtimeErr "Nenhum vídeo carregado")) ∧
    (vm.video_loaded = true →
      execInstr vm "PLAY" [] =
        .ok { vm with registers := dset vm.registers "SPEED" 1,
                      sensors := dset vm.sensors "IS_PLAYING" 1,
                      pc := vm.pc + 1 } ∧
      (pyInt s = some k →
        execInstr vm "PLAY" [s] =
          .ok { vm with registers := dset vm.registers "SPEED" k,
                        sensors := dset vm.sensors "IS_PLAYING" 1,
                        pc := vm.pc + 1 }) ∧
      (pyInt s = none →
        execInstr vm "PLAY" [s] =
          .error (.valueErr ("invalid literal for int with base 10: " ++ s)))) := by
  constructor
  · intro h
    constructor
    · simp [execInstr, h]
    · simp [execInstr, h]
  · intro h
    refine ⟨by simp [execInstr, h], ?_, ?_⟩
    · intro hk
      simp [execInstr, h, pyIntE, hk]
    · intro hk
      simp [execInstr, h, pyIntE, hk]

/-- Witness for C4: an unloaded machine fails on PLAY 2; a loaded
machine succeeds on PLAY with no operand, on PLAY 2, and fails on
PLAY R0. -/
theorem c4_play_witness :
    execInstr StreamVM.init "PLAY" ["2"] =
      .error (.runtimeErr "Nenhum vídeo carregado") ∧
    execInstr vmLoaded "PLAY" [] =
      .ok { vmLoaded with
              registers := dset vmLoaded.registers "SPEED" 1,
              sensors := dset vmLoaded.sensors "IS_PLAYING" 1,
              pc := vmLoaded.pc + 1 } ∧
    execInstr vmLoaded "PLAY" ["2"] =
      .ok { vmLoaded with
              registers := dset vmLoaded.registers "SPEED" 2,
              sensors := dset vmLoaded.sensors "IS_PLAYING" 1,
              pc := vmLoaded.pc + 1 } ∧
    execInstr vmLoaded "PLAY" ["R0"] =
      .error (.valueErr ("invalid literal for int with base 10: " ++ "R0")) :=
  ⟨((c4_play StreamVM.init "2" 2).1 rfl).2,
   ((c4_play vmLoaded "2" 2).2 rfl).1,
   ((c4_play vmLoaded "2" 2).2 rfl).2.1 (by decide),
   ((c4_play vmLoaded "R0" 0).2 rfl).2.2 (by decide)⟩

/-- Claim C5: run checks the step limit before each call to step, so a
machine with a fresh step counter whose program never halts fails with
the step-limit error after exactly k dispatched steps, while a machine
that reaches halted during dispatched step N with N ≤ max_steps
completes without a step-limit error. -/
theorem c5_run_limit (vm : StreamVM) (k : Nat) :
    (vm.steps = 0 →
      (∀ n, ∃ w, vm.iter n = .ok w ∧ w.halted = false) →
      ∃ w, vm.run k = .limitErr w ∧ w.steps = k) ∧
    (∀ (j N : Nat) (vmp vmf : StreamVM),
      vm.iter j = .ok vmp → vmp.halted = false → vmp.step = .ok vmf →
      vmf.halted = true → vmp.steps + 1 = N → vmf.steps = N → N ≤ k →
      vm.run k = .ok vmf) := by
  constructor
  · intro h0 hnt
    obtain ⟨w, hrun, hsteps, _⟩ := run_nonterm_aux k k vm hnt (by omega)
    exact ⟨w, hrun, hsteps⟩
  · intro j N vmp vmf hiter hp hstep hf hN1 hN2 hNk
    exact run_halt_aux k j vm vmp vmf hiter hp hstep hf (by omega)
      (by omega)

/-- Witness for C5: the one-instruction GOTO spin loop run with
max_steps 3 fails at the limit with exactly 3 dispatched steps, and the
one-instruction HALT program halts on dispatched step 1 and so succeeds
with max_steps 1. -/
theorem c5_run_limit_witness :
    (∃ w, spinVM.run 3 = .limitErr w ∧ w.steps = 3) ∧
    haltVM.run 1 = .ok { haltVM with halted := true, steps := 1 } :=
  ⟨(c5_run_limit spinVM 3).1 rfl
    (fun n => ⟨{ spinVM with steps := n },
      by
        have h2 := spin_iter n 0
        rw [Nat.zero_add] at h2
        exact h2,
      rfl⟩),
   (c5_run_limit haltVM 1).2 0 1 haltVM
     { haltVM with halted := true, steps := 1 }
     rfl rfl (by decide) rfl rfl rfl (by omega)⟩

/-- Claim C6 (amended): the loop "label: DECJZ R0 end; GOTO label;
end:" (which the assembler turns into the two-instruction program with
label at 0 and end at 2) started with R0 = n terminates with R0 = 0
after exactly 2n+1 dispatched steps — each decrement costs one DECJZ
plus one GOTO, and the final zero check costs one more — not the n+1
steps of the original claim. -/
theorem c6_decjz_loop (n : Nat) :
    (loopVM n 0).run (2 * n + 2) =
      .ok { loopVM 0 (2 * n + 1) with pc := 2, halted := true } ∧
    dget ({ loopVM 0 (2 * n + 1) with pc := 2, halted := true } :
      StreamVM).registers "R0" = some 0 ∧
    ({ loopVM 0 (2 * n + 1) with pc := 2, halted := true } :
      StreamVM).steps = 2 * n + 1 ∧
    StreamVM.init.load_program
        "label:\n    DECJZ R0 end\n    GOTO label\nend:" =
      .ok { StreamVM.init with program := loopProg, labels := loopLabels } := by
  refine ⟨?_, rfl, rfl, by decide⟩
  have h := run_loop n 0 (2 * n + 2) (by omega)
  rwa [Nat.zero_add] at h

/-- Claim C6 counterexample: with R0 = 1 the loop terminates with
R0 = 0 but after 3 dispatched steps, not 1 + 1 = 2 as the claim
states. -/
theorem c6_decjz_loop_counterexample :
    ∃ w, (loopVM 1 0).run 4 = .ok w ∧ dget w.registers "R0" = some 0 ∧
      w.halted = true ∧ w.steps = 3 ∧ w.steps ≠ 1 + 1 := by
  refine ⟨{ loopVM 0 3 with pc := 2, halted := true }, ?_, by decide,
    rfl, rfl, by decide⟩
  have h := run_loop 1 0 4 (by omega)
  norm_num at h
  exact h

/-- Claim C7 counterexample: POP with the token foo adds the uppercased
register name FOO to the register file, so the domain of the register
mapping is not fixed to POS, SPEED, R0, R1. -/
theorem c7_registers_counterexample :
    ∃ w, vmPopFoo.step = .ok w ∧ dget w.registers "FOO" = some 5 ∧
      dkeys w.registers ≠ ["POS", "SPEED", "R0", "R1"] := by
  refine ⟨{ vmPopFoo with
      registers := [("POS", 0), ("SPEED", 1), ("R0", 0), ("R1", 0),
        ("FOO", 5)],
      stack := [], pc := 1, steps := 1 }, by decide, by decide, by decide⟩

/-- Claim C7 (amended): the register domain stays exactly POS, SPEED,
R0, R1 under load_program (which never touches registers) and under
every step whose fetched instruction, when it is a POP, names
(case-insensitively) an existing register; a POP with any other token
instead grows the domain by that uppercased name, as the counterexample
shows. -/
theorem c7_registers (vm : StreamVM) (src : String) :
    (dkeys vm.registers = ["POS", "SPEED", "R0", "R1"] →
      (∀ a rest, (vm.program.getD vm.pc.toNat ⟨"", []⟩).op = "POP" →
        (vm.program.getD vm.pc.toNat ⟨"", []⟩).args = a :: rest →
        (dget vm.registers (pyUpper a)).isSome = true) →
      ∀ w, vm.step = .ok w →
        dkeys w.registers = ["POS", "SPEED", "R0", "R1"]) ∧
    (∀ w, vm.load_program src = .ok w → w.registers = vm.registers) := by
  constructor
  · intro hk hpop w h
    by_cases hh : vm.halted = true
    · rw [step_of_halted vm hh] at h
      cases h
      exact hk
    · replace hh : vm.halted = false := by
        cases hb : vm.halted
        · rfl
        · exact absurd hb hh
      by_cases hr : 0 ≤ vm.pc ∧ vm.pc < (vm.program.length : Int)
      · rw [step_dispatch vm hh hr] at h
        rcases hx : execInstr vm (vm.program.getD vm.pc.toNat ⟨"", []⟩).op
            (vm.program.getD vm.pc.toNat ⟨"", []⟩).args with e | w0
        · rw [hx] at h
          exact Except.noConfusion h
        · rw [hx] at h
          cases h
          have hP : (dget vm.registers "POS").isSome = true :=
            (dget_isSome_iff_mem _ _).mpr (by rw [hk]; simp)
          have hS : (dget vm.registers "SPEED").isSome = true :=
            (dget_isSome_iff_mem _ _).mpr (by rw [hk]; simp)
          have hkeys := exec_keys vm
            (vm.program.getD vm.pc.toNat ⟨"", []⟩).op
            (vm.program.getD vm.pc.toNat ⟨"", []⟩).args w0 hP hS hpop hx
          show dkeys w0.registers = ["POS", "SPEED", "R0", "R1"]
          rw [hkeys, hk]
      · rw [step_autohalt vm hh hr] at h
        cases h
        exact hk
  · intro w h
    simp only [StreamVM.load_program] at h
    rcases h1 : collectLabels (pyLines src) 0 [] with e | labs
    · rw [h1] at h
      exact Except.noConfusion h
    · rw [h1] at h
      rcases h2 : parseProgram (pyLines src) with e | prog
      · rw [h2] at h
        exact Except.noConfusion h
      · rw [h2] at h
        cases h
        rfl

/-- Witness for C7: a dispatched PUSH preserves the register domain, and
loading a program leaves the registers of the initial machine intact. -/
theorem c7_registers_witness :
    dkeys ({ pushVM with stack := [1], pc := 1, steps := 1 } :
      StreamVM).registers = ["POS", "SPEED", "R0", "R1"] ∧
    ({ StreamVM.init with program := [⟨"PUSH", ["1"]⟩] } :
      StreamVM).registers = StreamVM.init.registers :=
  ⟨(c7_registers pushVM "").1 (by decide)
      (fun a rest hop => absurd hop (by decide)) _ (by decide),
   (c7_registers StreamVM.init "PUSH 1").2
      { StreamVM.init with program := [⟨"PUSH", ["1"]⟩] } (by decide)⟩

/-- Claim C8 counterexample: a JUMPZ whose label is missing from the
label table succeeds (popping the nonzero value and falling through)
when the branch is not taken, so a branch instruction naming a missing
label does not always fail. -/
theorem c8_labels_counterexample :
    dget vmJumpzMissing.labels "missing" = none ∧
    ∃ w, vmJumpzMissing.step = .ok w :=
  ⟨rfl, ⟨{ vmJumpzMissing with stack := [], pc := 1, steps := 1 },
    by decide⟩⟩

/-- Claim C8 (amended): a missing label is an unknown-label ValueError
for GOTO always, but for JUMPZ, JUMPI and DECJZ only when the branch is
taken; a not-taken branch succeeds (consuming the stack top or
decrementing the register as usual) even though its label is missing
from the label table. -/
theorem c8_labels (vm : StreamVM) (lab reg : String) (v r : Int)
    (rest : List Int)
    (hl : dget vm.labels lab = none)
    (hs : vm.stack = v :: rest)
    (hr : dget vm.registers (pyUpper reg) = some r) :
    execInstr vm "GOTO" [lab] =
      .error (.valueErr ("Label desconhecido: " ++ lab)) ∧
    execInstr vm "JUMPZ" [lab] =
      (if v = 0 then .error (.valueErr ("Label desconhecido: " ++ lab))
       else .ok { vm with stack := rest, pc := vm.pc + 1 }) ∧
    execInstr vm "JUMPI" [lab] =
      (if v ≠ 0 then .error (.valueErr ("Label desconhecido: " ++ lab))
       else .ok { vm with stack := rest, pc := vm.pc + 1 }) ∧
    execInstr vm "DECJZ" [reg, lab] =
      (if r = 0 then .error (.valueErr ("Label desconhecido: " ++ lab))
       else .ok { vm with
                    registers := dset vm.registers (pyUpper reg) (r - 1),
                    pc := vm.pc + 1 }) := by
  refine ⟨by simp [execInstr, hl], ?_, ?_, ?_⟩
  · by_cases hv : v = 0
    · simp [execInstr, hs, hl, hv]
    · simp [execInstr, hs, hl, hv]
  · by_cases hv : v = 0
    · simp [execInstr, hs, hl, hv]
    · simp [execInstr, hs, hl, hv]
  · by_cases hz : r = 0
    · simp [execInstr, dgetE, hr, hl, hz]
    · simp [execInstr, dgetE, hr, hl, hz]

/-- Witness for C8 on a machine with stack top 1, R0 = 0 and an empty
label table: GOTO fails, the not-taken JUMPZ succeeds, the taken JUMPI
fails, and the taken DECJZ zero-branch fails. -/
theorem c8_labels_witness :
    execInstr vmStack1 "GOTO" ["missing"] =
      .error (.valueErr ("Label desconhecido: " ++ "missing")) ∧
    execInstr vmStack1 "JUMPZ" ["missing"] =
      (if (1 : Int) = 0 then
        .error (.valueErr ("Label desconhecido: " ++ "missing"))
       else .ok { vmStack1 with stack := [], pc := vmStack1.pc + 1 }) ∧
    execInstr vmStack1 "JUMPI" ["missing"] =
      (if (1 : Int) ≠ 0 then
        .error (.valueErr ("Label desconhecido: " ++ "missing"))
       else .ok { vmStack1 with stack := [], pc := vmStack1.pc + 1 }) ∧
    execInstr vmStack1 "DECJZ" ["R0", "missing"] =
      (if (0 : Int) = 0 then
        .error (.valueErr ("Label desconhecido: " ++ "missing"))
       else .ok { vmStack1 with
                    registers := dset vmStack1.registers (pyUpper "R0")
                      (0 - 1),
                    pc := vmStack1.pc + 1 }) :=
  c8_labels vmStack1 "missing" "R0" 1 0 [] (by decide) rfl (by decide)

/-- Claim C9: a successful load_program installs the assembled program
(pass 2) and label table (pass 1) from the source and resets the stack
to empty, pc to 0, halted to false and steps to 0, while leaving the
registers, the three sensors, the 256 memory cells, the video title and
the video_loaded flag exactly as they were. -/
theorem c9_load_program (vm w : StreamVM) (src : String)
    (h : vm.load_program src = .ok w) :
    w.registers = vm.registers ∧ w.sensors = vm.sensors ∧
    w.memory = vm.memory ∧ w.video_title = vm.video_title ∧
    w.video_loaded = vm.video_loaded ∧
    w.stack = [] ∧ w.pc = 0 ∧ w.halted = false ∧ w.steps = 0 ∧
    collectLabels (pyLines src) 0 [] = .ok w.labels ∧
    parseProgram (pyLines src) = .ok w.program := by
  simp only [StreamVM.load_program] at h
  rcases h1 : collectLabels (pyLines src) 0 [] with e | labs
  · rw [h1] at h
    exact Except.noConfusion h
  · rw [h1] at h
    rcases h2 : parseProgram (pyLines src) with e | prog
    · rw [h2] at h
      exact Except.noConfusion h
    · rw [h2] at h
      cases h
      exact ⟨rfl, rfl, rfl, rfl, rfl, rfl, rfl, rfl, rfl, rfl, rfl⟩

/-- Witness for C9: loading the two-line program "PUSH 1 / HALT" into a
machine with a video loaded keeps its registers and video flag and
resets the execution state. -/
theorem c9_load_program_witness :
    ({ vmLoaded with program := [⟨"PUSH", ["1"]⟩, ⟨"HALT", []⟩] } :
        StreamVM).registers = vmLoaded.registers ∧
    ({ vmLoaded with program := [⟨"PUSH", ["1"]⟩, ⟨"HALT", []⟩] } :
        StreamVM).video_loaded = vmLoaded.video_loaded ∧
    ({ vmLoaded with program := [⟨"PUSH", ["1"]⟩, ⟨"HALT", []⟩] } :
        StreamVM).stack = [] ∧
    ({ vmLoaded with program := [⟨"PUSH", ["1"]⟩, ⟨"HALT", []⟩] } :
        StreamVM).steps = 0 := by
  have h := c9_load_program vmLoaded
    { vmLoaded with program := [⟨"PUSH", ["1"]⟩, ⟨"HALT", []⟩] }
    "PUSH 1\nHALT" (by decide)
  exact ⟨h.1, h.2.2.2.2.1, h.2.2.2.2.2.1, h.2.2.2.2.2.2.2.2.1⟩

/-- Claim C10: LOAD and STORE are not range-checked against the
documented 0..255 addressing: an address n with -256 ≤ n < 0 reads or
writes the cell 256 + n (wrapping from the end) instead of failing,
while n ≥ 256 or n < -256 raises the untyped IndexError, and the memory
length stays exactly 256 in every case. -/
theorem c10_memory_wrap (vm : StreamVM) (s : String) (n v : Int)
    (rest : List Int) (hmem : vm.memory.length = 256)
    (harg : pyInt s = some n) (hs : vm.stack = v :: rest) :
    (-256 ≤ n → n < 0 →
      execInstr vm "LOAD" [s] =
        .ok { vm with
                stack := vm.memory.getD (n + 256).toNat 0 :: vm.stack,
                pc := vm.pc + 1 } ∧
      execInstr vm "STORE" [s] =
        .ok { vm with memory := vm.memory.set (n + 256).toNat v,
                      stack := rest, pc := vm.pc + 1 } ∧
      (vm.memory.set (n + 256).toNat v).length = 256) ∧
    ((256 ≤ n ∨ n < -256) →
      execInstr vm "LOAD" [s] = .error .indexErr ∧
      execInstr vm "STORE" [s] = .error .indexErr) := by
  constructor
  · intro h1 h2
    have hix : pyIx vm.memory n = .ok (vm.memory.getD (n + 256).toNat 0) := by
      simp only [pyIx, hmem]
      rw [if_pos h2, if_pos (by constructor <;> [omega; omega])]
      norm_num
    have hixs : pyIxSet vm.memory n v =
        .ok (vm.memory.set (n + 256).toNat v) := by
      simp only [pyIxSet, hmem]
      rw [if_pos h2, if_pos (by constructor <;> [omega; omega])]
      norm_num
    refine ⟨?_, ?_, ?_⟩
    · simp [execInstr, pyIntE, harg, hix]
    · simp [execInstr, pyIntE, harg, hs, hixs]
    · simp [hmem]
  · intro hout
    have hix : pyIx vm.memory n = .error .indexErr := by
      simp only [pyIx, hmem]
      rcases hout with hbig | hsmall
      · rw [show (if n < 0 then n + ((256 : Nat) : Int) else n) = n from
          if_neg (by omega)]
        rw [if_neg (by omega)]
      · rw [show (if n < 0 then n + ((256 : Nat) : Int) else n) = n + 256
          from by rw [if_pos (by omega)]; norm_num]
        rw [if_neg (by omega)]
    have hixs : pyIxSet vm.memory n v = .error .indexErr := by
      simp only [pyIxSet, hmem]
      rcases hout with hbig | hsmall
      · rw [show (if n < 0 then n + ((256 : Nat) : Int) else n) = n from
          if_neg (by omega)]
        rw [if_neg (by omega)]
      · rw [show (if n < 0 then n + ((256 : Nat) : Int) else n) = n + 256
          from by rw [if_pos (by omega)]; norm_num]
        rw [if_neg (by omega)]
    constructor
    · simp [execInstr, pyIntE, harg, hix]
    · simp [execInstr, pyIntE, harg, hs, hixs]

/-- Witness for C10 on a fresh machine with 9 on the stack: LOAD -1
reads cell 255, STORE -1 writes cell 255 keeping length 256, and
address 300 raises IndexError both ways. -/
theorem c10_memory_wrap_witness :
    execInstr { StreamVM.init with stack := [9] } "LOAD" ["-1"] =
      .ok { StreamVM.init with
              stack := StreamVM.init.memory.getD ((-1 : Int) + 256).toNat 0
                :: [9],
              pc := 1 } ∧
    (StreamVM.init.memory.set ((-1 : Int) + 256).toNat 9).length = 256 ∧
    execInstr { StreamVM.init with stack := [9] } "LOAD" ["300"] =
      .error .indexErr ∧
    execInstr { StreamVM.init with stack := [9] } "STORE" ["300"] =
      .error .indexErr := by
  have hneg := c10_memory_wrap { StreamVM.init with stack := [9] } "-1"
    (-1) 9 [] (by decide) (by decide) rfl
  have hbig := c10_memory_wrap { StreamVM.init with stack := [9] } "300"
    300 9 [] (by decide) (by decide) rfl
  refine ⟨?_, (hneg.1 (by omega) (by omega)).2.2, (hbig.2 (by omega)).1,
    (hbig.2 (by omega)).2⟩
  exact (hneg.1 (by omega) (by omega)).1
